import Mathlib

/-!
# TLS handshake parser (`src/tls_parser.c`): record layer, body decoders, dispatch

A shallow embedding of the decoding routines of `tls_parser.c` and of the
dispatch in `main`.

* A C pointer to `unsigned char` is a `Buffer`: a total function from offsets
  to bytes.  The caller owns the first `size` offsets; what a read at an offset
  `>= size` returns is whatever the function holds there, so a statement that
  quantifies over all buffers quantifies over every possible content of the
  memory behind the caller's bytes.
* Every routine returns, next to its C return code, the structure it has
  populated and the list of offsets it has dereferenced (`reads`), in program
  order.  `memcpy (dst, src + pos, n)` dereferences `pos, ..., pos + n - 1`.
* C integers are naturals (`int size` of the record layer is an `Int`).  Bytes
  are below 256, so no sum below leaves the range of the C type that holds it;
  the timestamp of a hello is reduced modulo `2 ^ 32`, as its assignment to a
  32-bit field does.
-/

namespace TlsParser

/-- One `unsigned char`. -/
abbrev Byte := Fin 256

/-- Memory seen through an `unsigned char *`: `p i` is `p[i]`. -/
abbrev Buffer := Nat → Byte

/-- The buffer that starts with the bytes of `l`; zero behind them. -/
def bufferOf (l : List Byte) : Buffer := fun i => l.getD i 0

/-- The bytes `memcpy (dst, src + pos, n)` stores in `dst`. -/
def memcpy (src : Buffer) (pos n : Nat) : List Byte := (List.range' pos n).map src

/-- The offsets of `src` that `memcpy (dst, src + pos, n)` dereferences. -/
def memcpyReads (pos n : Nat) : List Nat := List.range' pos n

/-! ## Constants -/

/-- Constant of the source: `#define MIN_RECORD_LAYER_SIZE 3`, commented there
"Has to be atleast (ContentType + TLS version)". -/
def MIN_RECORD_LAYER_SIZE : Nat := 3

/-- Constant of the source: `#define MIN_CLIENT_HELLO_SIZE 38`. -/
def MIN_CLIENT_HELLO_SIZE : Nat := 38

/-- Constant of the source: `#define MIN_SERVER_HELLO_SIZE 38`. -/
def MIN_SERVER_HELLO_SIZE : Nat := 38

/-- Constant of the source: `#define HELLO_RANDOM_BYTES_SIZE 28`. -/
def HELLO_RANDOM_BYTES_SIZE : Nat := 28

/-- Modelled from the spec: the content type constant `HANDSHAKE` of the header
`tls_parser.h`, which is not among the sources; the spec gives Handshake = 22. -/
def HANDSHAKE : Nat := 22

/-- Modelled from the spec: error code `InvalidLength` of `tls_parser.h`; the
value is the one `handle_errors` prints the length message for. -/
def INVALID_FILE_LENGTH : Nat := 1

/-- Modelled from the spec: error code `InvalidContentType` of `tls_parser.h`
(`handle_errors`, case 2). -/
def INVALID_CONTENT_TYPE : Nat := 2

/-- Modelled from the spec: error code `InvalidVersion` of `tls_parser.h`
(`handle_errors`, case 3). -/
def INVALID_VERSION : Nat := 3

/-- Modelled from the spec: error code `UnsupportedMessageType` of
`tls_parser.h` (`handle_errors`, case 4). -/
def UNSUPPORTED_MESSAGE_TYPE : Nat := 4

/-- Modelled from the spec: error code `InvalidLengthForClientKeyExchange` of
`tls_parser.h` (`handle_errors`, case 5). -/
def INVALID_FILE_LENGTH_FOR_CLIENT_KEY_EXCHANGE : Nat := 5

/-! ## Data model

Modelled from the spec: the structure declarations live in `tls_parser.h`,
which is not among the sources.  Field names are the ones the code assigns;
widths follow the data model of the spec (fragment length 16 bit, body length
24 bit, session id length one byte, cipher suite list length 16 bit), so no
assignment below truncates. -/

/-- Modelled from the spec: `ProtocolVersion` (major byte, minor byte). -/
structure ProtocolVersion where
  major : Byte
  minor : Byte
  deriving DecidableEq

/-- Modelled from the spec: `HandshakeMessage`, the record header, the
handshake header and the owned body. -/
structure HandshakeMessage where
  cType : Nat
  version : ProtocolVersion
  fLength : Nat
  hsType : Nat
  mLength : Nat
  body : List Byte
  deriving DecidableEq

/-- The structure after `memset (&tls_message, 0, sizeof (tls_message))`. -/
def HandshakeMessage.zero : HandshakeMessage :=
  { cType := 0, version := ⟨0, 0⟩, fLength := 0, hsType := 0, mLength := 0, body := [] }

/-- What `initialize_tls_structure` leaves behind: its return value, the
structure behind `tls_message`, and the offsets of `raw` it has read. -/
structure RecordResult where
  code : Nat
  tls_message : HandshakeMessage
  reads : List Nat
  deriving DecidableEq

/-! ## Version validator -/

/-- Function `is_valid_tls_version` of the source:
`major == 0x03 && (minor == 0x01 || minor == 0x02 || minor == 0x03)`. -/
def is_valid_tls_version (major minor : Byte) : Bool :=
  major.val == 0x03 && (minor.val == 0x01 || minor.val == 0x02 || minor.val == 0x03)

/-! ## Record layer -/

/-- Function `initialize_tls_structure (raw, size, tls_message)` of the source,
for a non-null `raw`.
The structure is updated in the order of the assignments of the source, so a
failing call returns it partially populated, as the C code leaves it. -/
def initialize_tls_structure (raw : Buffer) (size : Int) (tls_message : HandshakeMessage) :
    RecordResult :=
  if size ≤ (MIN_RECORD_LAYER_SIZE : Int) then
    { code := INVALID_FILE_LENGTH, tls_message := tls_message, reads := [] }
  else
    let pos := 0
    -- raw[pos++] != HANDSHAKE
    let reads := [pos]
    if (raw pos).val ≠ HANDSHAKE then
      { code := INVALID_CONTENT_TYPE, tls_message := tls_message, reads := reads }
    else
      let pos := pos + 1
      let reads := reads ++ [pos, pos + 1]
      if is_valid_tls_version (raw pos) (raw (pos + 1)) = false then
        { code := INVALID_VERSION, tls_message := tls_message, reads := reads }
      else
        let reads := reads ++ [1, 2]
        let tls_message :=
          { tls_message with cType := HANDSHAKE, version := { major := raw 1, minor := raw 2 } }
        let pos := pos + 2
        -- fLength = (raw[pos] << 8) + raw[pos + 1]
        let reads := reads ++ [pos, pos + 1]
        let tls_message :=
          { tls_message with fLength := ((raw pos).val <<< 8) + (raw (pos + 1)).val }
        let pos := pos + 2
        if ((tls_message.fLength + pos : Nat) : Int) ≠ size then
          { code := INVALID_FILE_LENGTH, tls_message := tls_message, reads := reads }
        else
          -- hsType = raw[pos++]
          let reads := reads ++ [pos]
          let tls_message := { tls_message with hsType := (raw pos).val }
          let pos := pos + 1
          -- mLength = (0x00 << 24) + (raw[pos] << 16) + (raw[pos + 1] << 8) + raw[pos + 2]
          let reads := reads ++ [pos, pos + 1, pos + 2]
          let tls_message :=
            { tls_message with
              mLength := (0x00 <<< 24) + ((raw pos).val <<< 16) + ((raw (pos + 1)).val <<< 8)
                + (raw (pos + 2)).val }
          let pos := pos + 3
          if tls_message.fLength ≠ tls_message.mLength + 4 then
            { code := INVALID_FILE_LENGTH, tls_message := tls_message, reads := reads }
          else
            -- body = malloc (mLength); memcpy (body, raw + pos, mLength)
            let reads := reads ++ memcpyReads pos tls_message.mLength
            let tls_message := { tls_message with body := memcpy raw pos tls_message.mLength }
            { code := 0, tls_message := tls_message, reads := reads }

/-! ## Hello messages -/

/-- Modelled from the spec: `Random` (32-bit timestamp, 28 opaque bytes). -/
structure Random where
  time : Nat
  random_bytes : List Byte
  deriving DecidableEq

/-- Modelled from the spec: `SessionId` (length byte, opaque bytes). -/
structure SessionId where
  length : Nat
  sessionId : List Byte
  deriving DecidableEq

/-- Modelled from the spec: `CipherSuiteList` of the ClientHello (16-bit byte
length, opaque bytes). -/
structure CipherSuiteCollection where
  length : Nat
  cipherSuites : List Byte
  deriving DecidableEq

/-- Modelled from the spec: `CompressionMethods` of the ClientHello (length
byte, one method byte). -/
structure CompresionMethod where
  length : Nat
  compresionMethod : Byte
  deriving DecidableEq

/-- Modelled from the spec: `ClientHello`. -/
structure ClientHello where
  version : ProtocolVersion
  random : Random
  sessionId : SessionId
  csCollection : CipherSuiteCollection
  compresionMethod : CompresionMethod
  hasExtensions : Bool
  extensions : List Byte
  deriving DecidableEq

/-- The structure after `memset (&client_hello, 0, sizeof (client_hello))`. -/
def ClientHello.zero : ClientHello :=
  { version := ⟨0, 0⟩, random := ⟨0, []⟩, sessionId := ⟨0, []⟩, csCollection := ⟨0, []⟩,
    compresionMethod := ⟨0, 0⟩, hasExtensions := false, extensions := [] }

/-- Modelled from the spec: `ServerHello`. -/
structure ServerHello where
  version : ProtocolVersion
  random : Random
  sessionId : SessionId
  cipherSuite : Byte × Byte
  compresionMethod : Byte
  hasExtensions : Bool
  extensions : List Byte
  deriving DecidableEq

/-- The structure after `memset (&server_hello, 0, sizeof (server_hello))`. -/
def ServerHello.zero : ServerHello :=
  { version := ⟨0, 0⟩, random := ⟨0, []⟩, sessionId := ⟨0, []⟩, cipherSuite := (0, 0),
    compresionMethod := 0, hasExtensions := false, extensions := [] }

/-- What a hello decoder leaves behind: its return value, the structure it
hands to its printer (none on a failing return: the structure is a local of the
decoder) and the offsets of `message` it has read. -/
structure HelloResult (α : Type) where
  code : Nat
  hello : Option α
  reads : List Nat
  deriving DecidableEq

/-- Function `parse_client_hello` from the compression methods on (source lines
185 to 212); `pos` is the cursor behind the cipher suite list. -/
def parse_client_hello_compression (message : Buffer) (size : Nat) (client_hello : ClientHello)
    (pos : Nat) (reads : List Nat) : HelloResult ClientHello :=
  -- CompresionMethod 2 bytes and Extensions 1 at least
  if size < pos + 3 then
    { code := INVALID_FILE_LENGTH, hello := none, reads := reads }
  else
    -- compresionMethod.length = message[pos++]
    let reads := reads ++ [pos]
    let client_hello :=
      { client_hello with
        compresionMethod := { client_hello.compresionMethod with length := (message pos).val } }
    let pos := pos + 1
    if client_hello.compresionMethod.length ≠ 1 then
      { code := INVALID_FILE_LENGTH, hello := none, reads := reads }
    else
      -- compresionMethod.compresionMethod = message[pos++]
      let reads := reads ++ [pos]
      let client_hello :=
        { client_hello with
          compresionMethod :=
            { client_hello.compresionMethod with compresionMethod := message pos } }
      let pos := pos + 1
      if size ≠ pos then
        { code := 0,
          hello := some { client_hello with
            hasExtensions := true, extensions := memcpy message pos (size - pos) },
          reads := reads ++ memcpyReads pos (size - pos) }
      else
        { code := 0, hello := some client_hello, reads := reads }

/-- Function `parse_client_hello` from the cipher suite list on (source lines 172
to 212); `pos` is the cursor behind the session id. -/
def parse_client_hello_cipher_suites (message : Buffer) (size : Nat) (client_hello : ClientHello)
    (pos : Nat) (reads : List Nat) : HelloResult ClientHello :=
  -- csCollection.length = (message[pos] << 8) + message[pos + 1]
  let reads := reads ++ [pos, pos + 1]
  let client_hello :=
    { client_hello with
      csCollection :=
        { client_hello.csCollection with
          length := ((message pos).val <<< 8) + (message (pos + 1)).val } }
  let pos := pos + 2
  if client_hello.csCollection.length > 0 then
    if size < pos + client_hello.csCollection.length then
      { code := INVALID_FILE_LENGTH, hello := none, reads := reads }
    else
      let reads := reads ++ memcpyReads pos client_hello.csCollection.length
      let client_hello :=
        { client_hello with
          csCollection :=
            { client_hello.csCollection with
              cipherSuites := memcpy message pos client_hello.csCollection.length } }
      let pos := pos + client_hello.csCollection.length
      parse_client_hello_compression message size client_hello pos reads
  else
    parse_client_hello_compression message size client_hello pos reads

/-- Function `parse_client_hello (message, size)` of the source, for a non-null
`message`.  `size` is a
`uint16_t` in the source; nothing below depends on the bound. -/
def parse_client_hello (message : Buffer) (size : Nat) : HelloResult ClientHello :=
  if size < MIN_CLIENT_HELLO_SIZE then
    { code := INVALID_FILE_LENGTH, hello := none, reads := [] }
  else
    let pos := 0
    let client_hello := ClientHello.zero
    let reads := [pos, pos + 1]
    if is_valid_tls_version (message pos) (message (pos + 1)) = false then
      { code := INVALID_VERSION, hello := none, reads := reads }
    else
      let reads := reads ++ [pos, pos + 1]
      let client_hello :=
        { client_hello with version := { major := message pos, minor := message (pos + 1) } }
      let pos := pos + 2
      -- random.time = (message[pos] << 24) + ... + message[pos + 3], a uint32_t
      let reads := reads ++ [pos, pos + 1, pos + 2, pos + 3]
      let client_hello :=
        { client_hello with
          random :=
            { client_hello.random with
              time := (((message pos).val <<< 24) + ((message (pos + 1)).val <<< 16)
                + ((message (pos + 2)).val <<< 8) + (message (pos + 3)).val) % 2 ^ 32 } }
      let pos := pos + 4
      let reads := reads ++ memcpyReads pos HELLO_RANDOM_BYTES_SIZE
      let client_hello :=
        { client_hello with
          random :=
            { client_hello.random with
              random_bytes := memcpy message pos HELLO_RANDOM_BYTES_SIZE } }
      let pos := pos + HELLO_RANDOM_BYTES_SIZE
      -- sessionId.length = message[pos++]
      let reads := reads ++ [pos]
      let client_hello :=
        { client_hello with
          sessionId := { client_hello.sessionId with length := (message pos).val } }
      let pos := pos + 1
      if client_hello.sessionId.length > 0 then
        if size < client_hello.sessionId.length + HELLO_RANDOM_BYTES_SIZE + 4 + 2 then
          { code := INVALID_FILE_LENGTH, hello := none, reads := reads }
        else
          let reads := reads ++ memcpyReads pos client_hello.sessionId.length
          let client_hello :=
            { client_hello with
              sessionId :=
                { client_hello.sessionId with
                  sessionId := memcpy message pos client_hello.sessionId.length } }
          let pos := pos + client_hello.sessionId.length
          parse_client_hello_cipher_suites message size client_hello pos reads
      else
        parse_client_hello_cipher_suites message size client_hello pos reads

/-- Function `parse_server_hello` from the chosen cipher suite on (source lines
305 to 330); `pos` is the cursor behind the session id. -/
def parse_server_hello_cipher_suite (message : Buffer) (size : Nat) (server_hello : ServerHello)
    (pos : Nat) (reads : List Nat) : HelloResult ServerHello :=
  -- cipherSuite[0] = message[pos++]; cipherSuite[1] = message[pos++]
  let reads := reads ++ [pos, pos + 1]
  let server_hello := { server_hello with cipherSuite := (message pos, message (pos + 1)) }
  let pos := pos + 2
  -- CompresionMethod needs to be present
  if size < pos + 1 then
    { code := INVALID_FILE_LENGTH, hello := none, reads := reads }
  else
    -- compresionMethod = message[pos++]
    let reads := reads ++ [pos]
    let server_hello := { server_hello with compresionMethod := message pos }
    let pos := pos + 1
    if size ≠ pos then
      { code := 0,
        hello := some { server_hello with
          hasExtensions := true, extensions := memcpy message pos (size - pos) },
        reads := reads ++ memcpyReads pos (size - pos) }
    else
      { code := 0, hello := some server_hello, reads := reads }

/-- Function `parse_server_hello (message, size)` of the source, for a non-null
`message`.  `size` is a
`uint16_t` in the source; nothing below depends on the bound. -/
def parse_server_hello (message : Buffer) (size : Nat) : HelloResult ServerHello :=
  if size < MIN_SERVER_HELLO_SIZE then
    { code := INVALID_FILE_LENGTH, hello := none, reads := [] }
  else
    let pos := 0
    let server_hello := ServerHello.zero
    let reads := [pos, pos + 1]
    if is_valid_tls_version (message pos) (message (pos + 1)) = false then
      { code := INVALID_VERSION, hello := none, reads := reads }
    else
      let reads := reads ++ [pos, pos + 1]
      let server_hello :=
        { server_hello with version := { major := message pos, minor := message (pos + 1) } }
      let pos := pos + 2
      -- random.time = (message[pos] << 24) + ... + message[pos + 3], a uint32_t
      let reads := reads ++ [pos, pos + 1, pos + 2, pos + 3]
      let server_hello :=
        { server_hello with
          random :=
            { server_hello.random with
              time := (((message pos).val <<< 24) + ((message (pos + 1)).val <<< 16)
                + ((message (pos + 2)).val <<< 8) + (message (pos + 3)).val) % 2 ^ 32 } }
      let pos := pos + 4
      let reads := reads ++ memcpyReads pos HELLO_RANDOM_BYTES_SIZE
      let server_hello :=
        { server_hello with
          random :=
            { server_hello.random with
              random_bytes := memcpy message pos HELLO_RANDOM_BYTES_SIZE } }
      let pos := pos + HELLO_RANDOM_BYTES_SIZE
      -- sessionId.length = message[pos++]
      let reads := reads ++ [pos]
      let server_hello :=
        { server_hello with
          sessionId := { server_hello.sessionId with length := (message pos).val } }
      let pos := pos + 1
      if server_hello.sessionId.length > 0 then
        if size < server_hello.sessionId.length + HELLO_RANDOM_BYTES_SIZE + 4 + 2 then
          { code := INVALID_FILE_LENGTH, hello := none, reads := reads }
        else
          let reads := reads ++ memcpyReads pos server_hello.sessionId.length
          let server_hello :=
            { server_hello with
              sessionId :=
                { server_hello.sessionId with
                  sessionId := memcpy message pos server_hello.sessionId.length } }
          let pos := pos + server_hello.sessionId.length
          parse_server_hello_cipher_suite message size server_hello pos reads
      else
        parse_server_hello_cipher_suite message size server_hello pos reads

/-! ## Shallow body decoders and dispatch -/

/-- Function `parse_certificate (size)` of the source: the chain must not be
empty.  `size` is a `uint16_t`. -/
def parse_certificate (size : Nat) : Nat :=
  if size = 0 then INVALID_FILE_LENGTH else 0

/-- Function `parse_server_key_exchange (size)` of the source: any length is
accepted. -/
def parse_server_key_exchange (_size : Nat) : Nat := 0

/-- Function `parse_server_hello_done (size)` of the source: the body must be
empty. -/
def parse_server_hello_done (size : Nat) : Nat :=
  if size ≠ 0 then INVALID_FILE_LENGTH else 0

/-- What `parse_client_key_exchange` leaves behind: its return value and the
offsets of `message` it has read. -/
structure KeyExchangeResult where
  code : Nat
  reads : List Nat
  deriving DecidableEq

/-- Function `parse_client_key_exchange (message, size)` of the source, for a
non-null `message`: `uint8_t length = message[0]` is read first, then compared
with `size - 1`, an `int` (it is -1 when `size` is 0). -/
def parse_client_key_exchange (message : Buffer) (size : Nat) : KeyExchangeResult :=
  let length := (message 0).val
  let reads := [0]
  if (length : Int) ≠ (size : Int) - 1 then
    { code := INVALID_FILE_LENGTH_FOR_CLIENT_KEY_EXCHANGE, reads := reads }
  else
    { code := 0, reads := reads }

/-- The memory seen through `tls_message.body`: the `mLength` bytes copied into
the block `malloc` returned, and behind them whatever the heap holds
(`behind`). -/
def bodyBuffer (body : List Byte) (behind : Buffer) : Buffer :=
  fun i => if i < body.length then body.getD i 0 else behind i

/-- What `main` has when it stops: the error code it hands to `handle_errors`
(0 when it prints its last line) and the record structure. -/
structure MainResult where
  err : Nat
  tls_message : HandshakeMessage
  deriving DecidableEq

/-- Function `main` of the source from the call of `initialize_tls_structure`
on, for the file contents `buf` of `file_size` bytes.  `handle_errors` ends the
run on a non-zero code.  The body decoders take the `uint32_t` body length
through a `uint16_t` parameter, hence the reduction modulo `2 ^ 16`. -/
def main (buf : Buffer) (file_size : Int) (behind : Buffer) : MainResult :=
  let r := initialize_tls_structure buf file_size HandshakeMessage.zero
  let tls_message := r.tls_message
  if r.code ≠ 0 then
    { err := r.code, tls_message := tls_message }
  else
    let body := bodyBuffer tls_message.body behind
    let size := tls_message.mLength % 2 ^ 16
    let err :=
      match tls_message.hsType with
      | 1 => (parse_client_hello body size).code
      | 2 => (parse_server_hello body size).code
      | 11 => parse_certificate size
      | 12 => parse_server_key_exchange size
      | 14 => parse_server_hello_done size
      | 16 => (parse_client_key_exchange body size).code
      | _ => UNSUPPORTED_MESSAGE_TYPE
    { err := err, tls_message := tls_message }

/-! ## Strict reference decoders -/

/-- Strict variant of the cipher suite stage of `parse_client_hello`: the two
length bytes are read only when `size >= pos + 2`. -/
def parse_client_hello_cipher_suites_strict (message : Buffer) (size : Nat)
    (client_hello : ClientHello) (pos : Nat) (reads : List Nat) : HelloResult ClientHello :=
  if size < pos + 2 then
    { code := INVALID_FILE_LENGTH, hello := none, reads := reads }
  else
    parse_client_hello_cipher_suites message size client_hello pos reads

/-- Strict variant of `parse_client_hello`, the reference decoder of the
refinement statement: identical to `parse_client_hello` except that the session
id guard compares `size` with the cursor (`size < pos + length`, that is
`size < 35 + length`) and that the cipher suite length is read only when
`size >= pos + 2`. -/
def parse_client_hello_strict (message : Buffer) (size : Nat) : HelloResult ClientHello :=
  if size < MIN_CLIENT_HELLO_SIZE then
    { code := INVALID_FILE_LENGTH, hello := none, reads := [] }
  else
    let pos := 0
    let client_hello := ClientHello.zero
    let reads := [pos, pos + 1]
    if is_valid_tls_version (message pos) (message (pos + 1)) = false then
      { code := INVALID_VERSION, hello := none, reads := reads }
    else
      let reads := reads ++ [pos, pos + 1]
      let client_hello :=
        { client_hello with version := { major := message pos, minor := message (pos + 1) } }
      let pos := pos + 2
      let reads := reads ++ [pos, pos + 1, pos + 2, pos + 3]
      let client_hello :=
        { client_hello with
          random :=
            { client_hello.random with
              time := (((message pos).val <<< 24) + ((message (pos + 1)).val <<< 16)
                + ((message (pos + 2)).val <<< 8) + (message (pos + 3)).val) % 2 ^ 32 } }
      let pos := pos + 4
      let reads := reads ++ memcpyReads pos HELLO_RANDOM_BYTES_SIZE
      let client_hello :=
        { client_hello with
          random :=
            { client_hello.random with
              random_bytes := memcpy message pos HELLO_RANDOM_BYTES_SIZE } }
      let pos := pos + HELLO_RANDOM_BYTES_SIZE
      let reads := reads ++ [pos]
      let client_hello :=
        { client_hello with
          sessionId := { client_hello.sessionId with length := (message pos).val } }
      let pos := pos + 1
      if client_hello.sessionId.length > 0 then
        if size < pos + client_hello.sessionId.length then
          { code := INVALID_FILE_LENGTH, hello := none, reads := reads }
        else
          let reads := reads ++ memcpyReads pos client_hello.sessionId.length
          let client_hello :=
            { client_hello with
              sessionId :=
                { client_hello.sessionId with
                  sessionId := memcpy message pos client_hello.sessionId.length } }
          let pos := pos + client_hello.sessionId.length
          parse_client_hello_cipher_suites_strict message size client_hello pos reads
      else
        parse_client_hello_cipher_suites_strict message size client_hello pos reads

/-- Strict variant of the tail of `parse_server_hello`: the two cipher suite
bytes are read only when `size >= pos + 2`. -/
def parse_server_hello_cipher_suite_strict (message : Buffer) (size : Nat)
    (server_hello : ServerHello) (pos : Nat) (reads : List Nat) : HelloResult ServerHello :=
  if size < pos + 2 then
    { code := INVALID_FILE_LENGTH, hello := none, reads := reads }
  else
    parse_server_hello_cipher_suite message size server_hello pos reads

/-- Strict variant of `parse_server_hello`, the reference decoder of the
refinement statement: identical to `parse_server_hello` except that the session
id guard compares `size` with the cursor (`size < pos + length`) and that the
cipher suite is read only when `size >= pos + 2`. -/
def parse_server_hello_strict (message : Buffer) (size : Nat) : HelloResult ServerHello :=
  if size < MIN_SERVER_HELLO_SIZE then
    { code := INVALID_FILE_LENGTH, hello := none, reads := [] }
  else
    let pos := 0
    let server_hello := ServerHello.zero
    let reads := [pos, pos + 1]
    if is_valid_tls_version (message pos) (message (pos + 1)) = false then
      { code := INVALID_VERSION, hello := none, reads := reads }
    else
      let reads := reads ++ [pos, pos + 1]
      let server_hello :=
        { server_hello with version := { major := message pos, minor := message (pos + 1) } }
      let pos := pos + 2
      let reads := reads ++ [pos, pos + 1, pos + 2, pos + 3]
      let server_hello :=
        { server_hello with
          random :=
            { server_hello.random with
              time := (((message pos).val <<< 24) + ((message (pos + 1)).val <<< 16)
                + ((message (pos + 2)).val <<< 8) + (message (pos + 3)).val) % 2 ^ 32 } }
      let pos := pos + 4
      let reads := reads ++ memcpyReads pos HELLO_RANDOM_BYTES_SIZE
      let server_hello :=
        { server_hello with
          random :=
            { server_hello.random with
              random_bytes := memcpy message pos HELLO_RANDOM_BYTES_SIZE } }
      let pos := pos + HELLO_RANDOM_BYTES_SIZE
      let reads := reads ++ [pos]
      let server_hello :=
        { server_hello with
          sessionId := { server_hello.sessionId with length := (message pos).val } }
      let pos := pos + 1
      if server_hello.sessionId.length > 0 then
        if size < pos + server_hello.sessionId.length then
          { code := INVALID_FILE_LENGTH, hello := none, reads := reads }
        else
          let reads := reads ++ memcpyReads pos server_hello.sessionId.length
          let server_hello :=
            { server_hello with
              sessionId :=
                { server_hello.sessionId with
                  sessionId := memcpy message pos server_hello.sessionId.length } }
          let pos := pos + server_hello.sessionId.length
          parse_server_hello_cipher_suite_strict message size server_hello pos reads
      else
        parse_server_hello_cipher_suite_strict message size server_hello pos reads

/-! ## Named quantities of the statements -/

/-- Big-endian 16-bit value of `raw[3], raw[4]`: the fragment length field. -/
def fragmentLength (raw : Buffer) : Nat := (raw 3).val * 256 + (raw 4).val

/-- Big-endian 24-bit value of `raw[6], raw[7], raw[8]`: the body length field. -/
def bodyLength (raw : Buffer) : Nat := (raw 6).val * 65536 + (raw 7).val * 256 + (raw 8).val

/-- Session id length byte of a hello body, `m[34]`. -/
def sessionIdLength (m : Buffer) : Nat := (m 34).val

/-- Cipher suite list length of a ClientHello body, the big-endian 16-bit value
of the two bytes behind the session id. -/
def cipherSuitesLength (m : Buffer) : Nat :=
  (m (35 + sessionIdLength m)).val * 256 + (m (36 + sessionIdLength m)).val

/-- Big-endian 32-bit value of `m[2..5]`: the timestamp of a hello body. -/
def helloTime (m : Buffer) : Nat :=
  (m 2).val * 16777216 + (m 3).val * 65536 + (m 4).val * 256 + (m 5).val

/-- Offsets both hello decoders read up to and including the session id length
byte: version (twice), timestamp, random bytes, length byte. -/
def helloPrefixReads : List Nat := [0, 1, 0, 1, 2, 3, 4, 5] ++ memcpyReads 6 28 ++ [34]

/-! ## Sample inputs -/

/-- A complete record: `16 03 03 00 04 0E 00 00 00`, a ServerHelloDone. -/
def serverHelloDoneRecord : List Byte := [22, 3, 3, 0, 4, 14, 0, 0, 0]

/-- A complete record with a two byte body: `16 03 01 00 06 10 00 00 02 01 AA`. -/
def clientKeyExchangeRecord : List Byte := [22, 3, 1, 0, 6, 16, 0, 0, 2, 1, 170]

/-- A four byte file that is not a handshake record: `17 03 03 00`. -/
def shortApplicationDataRecord : List Byte := [23, 3, 3, 0]

/-- A four byte file that starts like a handshake record: `16 03 03 00`. -/
def truncatedRecord : List Byte := [22, 3, 3, 0]

/-- A 38 byte hello body announcing a 4 byte session id: version 3.3, zero
timestamp and random, `m[34] = 4`, three more bytes. -/
def helloBodySessionIdOverrun : List Byte :=
  [3, 3] ++ List.replicate 32 0 ++ [4, 1, 2, 3]

/-- A 38 byte hello body announcing a 2 byte session id: version 3.3, zero
timestamp and random, `m[34] = 2`, three more bytes. -/
def helloBodyCipherSuiteOverrun : List Byte :=
  [3, 3] ++ List.replicate 32 0 ++ [2, 1, 2, 3]

/-- The shortest ClientHello body the decoder accepts (40 bytes): version 3.3,
zero timestamp and random, empty session id, empty cipher suite list, one
compression method (0) and one extension byte. -/
def minimalClientHelloBody : List Byte :=
  [3, 3] ++ List.replicate 32 0 ++ [0] ++ [0, 0] ++ [1, 0] ++ [255]

/-- A 38 byte ServerHello body: version 3.3, zero timestamp and random, empty
session id, cipher suite `00 2F`, compression method 0, no extensions. -/
def minimalServerHelloBody : List Byte :=
  [3, 3] ++ List.replicate 32 0 ++ [0] ++ [0, 47] ++ [0]

/-- Byte `k` (0 = least significant) of a natural number. -/
def byteOf (n k : Nat) : Byte := ⟨n / 256 ^ k % 256, Nat.mod_lt _ (by decide)⟩

/-- Modelled from the spec: the encoder of the ClientHello round trip (the
repository has no encoder).  Session id length 0, cipher suite list length 4,
compression length 1:
`version (2) | timestamp (4, big-endian) | random | 00 | 00 04 | suites | 01 | method | extensions`. -/
def encodeClientHello (version : ProtocolVersion) (time : Nat) (random suites : List Byte)
    (method : Byte) (extensions : List Byte) : List Byte :=
  [version.major, version.minor]
    ++ [byteOf time 3, byteOf time 2, byteOf time 1, byteOf time 0]
    ++ random ++ [0] ++ [0, 4] ++ suites ++ [1] ++ [method] ++ extensions

/-- The body of the round trip with no extension: version 3.3, zero timestamp
and random, suites `00 2F 00 35`, compression method 0 (43 bytes). -/
def clientHelloWithoutExtensions : List Byte :=
  encodeClientHello { major := 3, minor := 3 } 0 (List.replicate 28 0) [0, 47, 0, 53] 0 []

/-- The same body with one extension byte (44 bytes). -/
def clientHelloWithOneExtensionByte : List Byte :=
  encodeClientHello { major := 3, minor := 3 } 0 (List.replicate 28 0) [0, 47, 0, 53] 0 [255]

/-- The record `16 03 03 00 04 FF 00 00 00`: handshake type 255, empty body. -/
def unsupportedTypeRecord : List Byte := [22, 3, 3, 0, 4, 255, 0, 0, 0]

/-- The record `16 03 03 00 04 10 00 00 00`: a ClientKeyExchange with an empty
body. -/
def emptyClientKeyExchangeRecord : List Byte := [22, 3, 3, 0, 4, 16, 0, 0, 0]

/-- The ClientKeyExchange body `02 AA BB`. -/
def clientKeyExchangeBody : List Byte := [2, 170, 187]

/-- The ClientKeyExchange body `03 AA BB`. -/
def clientKeyExchangeBodyWrongLength : List Byte := [3, 170, 187]

/-- A 73 byte ClientHello body with a session id of 33 bytes: version 3.3, zero
timestamp and random, `m[34] = 33`, 33 session id bytes, empty cipher suite
list, one compression method and one extension byte. -/
def clientHelloLongSessionId : List Byte :=
  [3, 3] ++ List.replicate 32 0 ++ [33] ++ List.replicate 33 7 ++ [0, 0] ++ [1, 0] ++ [255]

/-- A 71 byte ServerHello body with a session id of 33 bytes: version 3.3, zero
timestamp and random, `m[34] = 33`, 33 session id bytes, cipher suite `00 2F`,
compression method 0. -/
def serverHelloLongSessionId : List Byte :=
  [3, 3] ++ List.replicate 32 0 ++ [33] ++ List.replicate 33 7 ++ [0, 47] ++ [0]

/-- A 41 byte ClientHello body with a cipher suite list of one byte: version
3.3, zero timestamp and random, empty session id, list length `00 01`, the byte
`2F`, one compression method and one extension byte. -/
def clientHelloOddCipherSuites : List Byte :=
  [3, 3] ++ List.replicate 32 0 ++ [0] ++ [0, 1] ++ [47] ++ [1, 0] ++ [255]

/-! ## Arithmetic of the big-endian fields and of `memcpy` -/

/-- Big-endian 16-bit field: the shift is a multiplication by 256. -/
theorem be16_eq (a b : Byte) : (a.val <<< 8) + b.val = a.val * 256 + b.val := by
  simp only [Nat.shiftLeft_eq]

/-- Big-endian 24-bit field (`mLength`). -/
theorem be24_eq (a b c : Byte) :
    (0x00 <<< 24) + (a.val <<< 16) + (b.val <<< 8) + c.val
      = a.val * 65536 + b.val * 256 + c.val := by
  simp only [Nat.shiftLeft_eq]
  norm_num

/-- Big-endian 32-bit field (`random.time`): the sum fits a `uint32_t`. -/
theorem be32_eq (a b c d : Byte) :
    ((a.val <<< 24) + (b.val <<< 16) + (c.val <<< 8) + d.val) % 2 ^ 32
      = a.val * 16777216 + b.val * 65536 + c.val * 256 + d.val := by
  simp only [Nat.shiftLeft_eq]
  norm_num
  omega

/-- Length of a copy: `memcpy` of `n` bytes yields `n` bytes. -/
theorem memcpy_length (src : Buffer) (pos n : Nat) : (memcpy src pos n).length = n := by
  simp [memcpy]

/-- Contents of a copy: byte `i` of the copy is `src[pos + i]`. -/
theorem memcpy_getElem? (src : Buffer) (pos n i : Nat) (h : i < n) :
    (memcpy src pos n)[i]? = some (src (pos + i)) := by
  simp [memcpy, List.getElem?_map, List.getElem?_range' , h]

/-- Copy of no byte. -/
theorem memcpy_zero (src : Buffer) (pos : Nat) : memcpy src pos 0 = [] := rfl

/-- Copy of no byte reads nothing. -/
theorem memcpyReads_zero (pos : Nat) : memcpyReads pos 0 = [] := rfl

/-- Byte of a list buffer right behind a prefix. -/
theorem bufferOf_append_cons (pre post : List Byte) (x : Byte) (i : Nat)
    (h : pre.length = i) : bufferOf (pre ++ x :: post) i = x := by
  subst h
  show (pre ++ x :: post).getD pre.length 0 = x
  rw [List.getD_eq_getElem?_getD, List.getElem?_append_right (le_refl _)]
  simp

/-- Copy of a middle segment of a list buffer. -/
theorem memcpy_bufferOf_append (pre mid post : List Byte) (pos n : Nat)
    (hp : pre.length = pos) (hn : mid.length = n) :
    memcpy (bufferOf (pre ++ (mid ++ post))) pos n = mid := by
  subst hp hn
  apply List.ext_getElem?
  intro i
  by_cases hi : i < mid.length
  · rw [memcpy_getElem? _ _ _ _ hi]
    simp [bufferOf, List.getD, List.getElem?_append_right, List.getElem?_append_left, hi]
  · have h1 : (memcpy (bufferOf (pre ++ (mid ++ post))) pre.length mid.length).length ≤ i := by
      rw [memcpy_length]; omega
    rw [List.getElem?_eq_none h1, List.getElem?_eq_none (by omega)]

/-- The four bytes of a 32-bit number, most significant first, give the number. -/
theorem byteOf_be32 (t : Nat) (ht : t < 2 ^ 32) :
    (byteOf t 3).val * 16777216 + (byteOf t 2).val * 65536 + (byteOf t 1).val * 256
      + (byteOf t 0).val = t := by
  simp only [byteOf]
  norm_num at ht ⊢
  omega

/-! ## The record layer in closed form -/

/-- Closed form of the record layer: one branch per `return` of the source. -/
theorem initialize_tls_structure_eq (raw : Buffer) (size : Int) (t : HandshakeMessage) :
    initialize_tls_structure raw size t =
      if size ≤ 3 then { code := INVALID_FILE_LENGTH, tls_message := t, reads := [] }
      else if (raw 0).val ≠ 22 then
        { code := INVALID_CONTENT_TYPE, tls_message := t, reads := [0] }
      else if is_valid_tls_version (raw 1) (raw 2) = false then
        { code := INVALID_VERSION, tls_message := t, reads := [0, 1, 2] }
      else if (fragmentLength raw : Int) + 5 ≠ size then
        { code := INVALID_FILE_LENGTH,
          tls_message := { t with cType := 22, version := ⟨raw 1, raw 2⟩,
                                  fLength := fragmentLength raw },
          reads := [0, 1, 2, 1, 2, 3, 4] }
      else if fragmentLength raw ≠ bodyLength raw + 4 then
        { code := INVALID_FILE_LENGTH,
          tls_message := { t with cType := 22, version := ⟨raw 1, raw 2⟩,
                                  fLength := fragmentLength raw, hsType := (raw 5).val,
                                  mLength := bodyLength raw },
          reads := [0, 1, 2, 1, 2, 3, 4, 5, 6, 7, 8] }
      else
        { code := 0,
          tls_message := { cType := 22, version := ⟨raw 1, raw 2⟩,
                           fLength := fragmentLength raw, hsType := (raw 5).val,
                           mLength := bodyLength raw,
                           body := memcpy raw 9 (bodyLength raw) },
          reads := [0, 1, 2, 1, 2, 3, 4, 5, 6, 7, 8] ++ memcpyReads 9 (bodyLength raw) } := by
  unfold initialize_tls_structure fragmentLength bodyLength
  simp only [MIN_RECORD_LAYER_SIZE, HANDSHAKE, be16_eq, be24_eq]
  split_ifs <;> first | rfl | (exfalso; push_cast at *; omega)

/-- Return code of the record layer, one branch per check. -/
theorem initialize_tls_structure_code (raw : Buffer) (size : Int) (t : HandshakeMessage) :
    (initialize_tls_structure raw size t).code =
      if size ≤ 3 then INVALID_FILE_LENGTH
      else if (raw 0).val ≠ 22 then INVALID_CONTENT_TYPE
      else if is_valid_tls_version (raw 1) (raw 2) = false then INVALID_VERSION
      else if (fragmentLength raw : Int) + 5 ≠ size then INVALID_FILE_LENGTH
      else if fragmentLength raw ≠ bodyLength raw + 4 then INVALID_FILE_LENGTH
      else 0 := by
  rw [initialize_tls_structure_eq]
  split_ifs <;> rfl

/-- Success of the record layer: all five checks pass. -/
theorem initialize_tls_structure_ok_iff (raw : Buffer) (size : Int) (t : HandshakeMessage) :
    (initialize_tls_structure raw size t).code = 0 ↔
      (¬ size ≤ 3 ∧ (raw 0).val = 22 ∧ is_valid_tls_version (raw 1) (raw 2) = true ∧
        (fragmentLength raw : Int) + 5 = size ∧ fragmentLength raw = bodyLength raw + 4) := by
  rw [initialize_tls_structure_code]
  simp only [INVALID_FILE_LENGTH, INVALID_CONTENT_TYPE, INVALID_VERSION]
  split_ifs <;> simp_all

/-- Result of the record layer when all five checks pass. -/
theorem initialize_tls_structure_ok_eq (raw : Buffer) (size : Int) (t : HandshakeMessage)
    (h1 : ¬ size ≤ 3) (h2 : (raw 0).val = 22) (h3 : is_valid_tls_version (raw 1) (raw 2) = true)
    (h4 : (fragmentLength raw : Int) + 5 = size) (h5 : fragmentLength raw = bodyLength raw + 4) :
    initialize_tls_structure raw size t =
      { code := 0,
        tls_message := { cType := 22, version := ⟨raw 1, raw 2⟩,
                         fLength := fragmentLength raw, hsType := (raw 5).val,
                         mLength := bodyLength raw,
                         body := memcpy raw 9 (bodyLength raw) },
        reads := [0, 1, 2, 1, 2, 3, 4, 5, 6, 7, 8] ++ memcpyReads 9 (bodyLength raw) } := by
  rw [initialize_tls_structure_eq, if_neg h1, if_neg (not_not.mpr h2), if_neg (by simp [h3]),
    if_neg (not_not.mpr h4), if_neg (not_not.mpr h5)]

/-! ## The hello decoders in closed form -/

/-- The tail of `parse_client_hello` in closed form. -/
theorem parse_client_hello_compression_eq (m : Buffer) (size : Nat) (ch : ClientHello)
    (pos : Nat) (reads : List Nat) :
    parse_client_hello_compression m size ch pos reads =
      if size < pos + 3 then { code := INVALID_FILE_LENGTH, hello := none, reads := reads }
      else if (m pos).val ≠ 1 then
        { code := INVALID_FILE_LENGTH, hello := none, reads := reads ++ [pos] }
      else
        { code := 0,
          hello := some { ch with
            compresionMethod := { length := 1, compresionMethod := m (pos + 1) },
            hasExtensions := true,
            extensions := memcpy m (pos + 2) (size - (pos + 2)) },
          reads := reads ++ [pos] ++ [pos + 1] ++ memcpyReads (pos + 2) (size - (pos + 2)) } := by
  unfold parse_client_hello_compression
  by_cases h1 : size < pos + 3
  · simp only [h1, if_true]
  · by_cases h2 : (m pos).val ≠ 1
    · simp only [h1, h2, if_false, if_true, not_false_eq_true, ne_eq]
    · have h3 : size ≠ pos + 1 + 1 := by omega
      have h4 : (m pos).val = 1 := by omega
      simp only [h1, h2, h3, h4, if_false, if_true, not_false_eq_true, ne_eq, not_true_eq_false]

/-- The cipher suite stage of `parse_client_hello` in closed form. -/
theorem parse_client_hello_cipher_suites_eq (m : Buffer) (size : Nat) (ch : ClientHello)
    (pos : Nat) (reads : List Nat) (hz : ch.csCollection.cipherSuites = []) :
    parse_client_hello_cipher_suites m size ch pos reads =
      if 0 < (m pos).val * 256 + (m (pos + 1)).val ∧
          size < pos + 2 + ((m pos).val * 256 + (m (pos + 1)).val) then
        { code := INVALID_FILE_LENGTH, hello := none, reads := reads ++ [pos, pos + 1] }
      else
        parse_client_hello_compression m size
          { ch with
            csCollection :=
              { length := (m pos).val * 256 + (m (pos + 1)).val,
                cipherSuites := memcpy m (pos + 2) ((m pos).val * 256 + (m (pos + 1)).val) } }
          (pos + 2 + ((m pos).val * 256 + (m (pos + 1)).val))
          (reads ++ [pos, pos + 1]
            ++ memcpyReads (pos + 2) ((m pos).val * 256 + (m (pos + 1)).val)) := by
  unfold parse_client_hello_cipher_suites
  simp only [be16_eq]
  by_cases h1 : (m pos).val * 256 + (m (pos + 1)).val > 0
  · by_cases h2 : size < pos + 2 + ((m pos).val * 256 + (m (pos + 1)).val)
    · rw [if_pos h1, if_pos h2, if_pos ⟨h1, h2⟩]
    · rw [if_pos h1, if_neg h2, if_neg (fun h => h2 h.2)]
  · have h0 : (m pos).val * 256 + (m (pos + 1)).val = 0 := by omega
    rw [if_neg h1, if_neg (fun h => h1 h.1)]
    simp only [h0, memcpy_zero, memcpyReads_zero, List.append_nil, Nat.add_zero]
    congr 1
    cases ch with
    | mk v r s cs cm he ex =>
      cases cs with
      | mk l c =>
        simp only at hz
        subst hz
        rfl

/-- Closed form of `parse_client_hello` up to the session id. -/
theorem parse_client_hello_session_id_eq (m : Buffer) (size : Nat) :
    parse_client_hello m size =
      if size < 38 then { code := INVALID_FILE_LENGTH, hello := none, reads := [] }
      else if is_valid_tls_version (m 0) (m 1) = false then
        { code := INVALID_VERSION, hello := none, reads := [0, 1] }
      else if 0 < sessionIdLength m ∧ size < sessionIdLength m + 34 then
        { code := INVALID_FILE_LENGTH, hello := none, reads := helloPrefixReads }
      else
        parse_client_hello_cipher_suites m size
          { ClientHello.zero with
            version := { major := m 0, minor := m 1 },
            random := { time := helloTime m, random_bytes := memcpy m 6 28 },
            sessionId :=
              { length := sessionIdLength m, sessionId := memcpy m 35 (sessionIdLength m) } }
          (35 + sessionIdLength m)
          (helloPrefixReads ++ memcpyReads 35 (sessionIdLength m)) := by
  unfold parse_client_hello
  simp only [MIN_CLIENT_HELLO_SIZE, HELLO_RANDOM_BYTES_SIZE, be32_eq, Nat.zero_add,
    Nat.reduceAdd, sessionIdLength, helloTime, helloPrefixReads]
  by_cases h38 : size < 38
  · rw [if_pos h38, if_pos h38]
  · rw [if_neg h38, if_neg h38]
    by_cases hv : is_valid_tls_version (m 0) (m 1) = false
    · rw [if_pos hv, if_pos hv]
    · rw [if_neg hv, if_neg hv]
      by_cases hL : (m 34).val > 0
      · rw [if_pos hL]
        by_cases hs : size < (m 34).val + 28 + 4 + 2
        · rw [if_pos hs, if_pos ⟨hL, by omega⟩]
          rfl
        · rw [if_neg hs, if_neg (fun h => hs (by omega))]
          rfl
      · have h0 : (m 34).val = 0 := by omega
        rw [if_neg hL, if_neg (fun h => hL h.1)]
        simp only [h0, memcpy_zero, memcpyReads_zero, List.append_nil, Nat.add_zero]
        rfl

/-- Closed form of `parse_client_hello`: one branch per `return` of the source,
with the offsets written out. -/
theorem parse_client_hello_eq (m : Buffer) (size : Nat) :
    parse_client_hello m size =
      if size < 38 then { code := INVALID_FILE_LENGTH, hello := none, reads := [] }
      else if is_valid_tls_version (m 0) (m 1) = false then
        { code := INVALID_VERSION, hello := none, reads := [0, 1] }
      else if 0 < sessionIdLength m ∧ size < sessionIdLength m + 34 then
        { code := INVALID_FILE_LENGTH, hello := none, reads := helloPrefixReads }
      else if 0 < cipherSuitesLength m ∧
          size < 37 + sessionIdLength m + cipherSuitesLength m then
        { code := INVALID_FILE_LENGTH, hello := none,
          reads := helloPrefixReads ++ memcpyReads 35 (sessionIdLength m)
            ++ [35 + sessionIdLength m, 36 + sessionIdLength m] }
      else if size < 40 + sessionIdLength m + cipherSuitesLength m then
        { code := INVALID_FILE_LENGTH, hello := none,
          reads := helloPrefixReads ++ memcpyReads 35 (sessionIdLength m)
            ++ [35 + sessionIdLength m, 36 + sessionIdLength m]
            ++ memcpyReads (37 + sessionIdLength m) (cipherSuitesLength m) }
      else if (m (37 + sessionIdLength m + cipherSuitesLength m)).val ≠ 1 then
        { code := INVALID_FILE_LENGTH, hello := none,
          reads := helloPrefixReads ++ memcpyReads 35 (sessionIdLength m)
            ++ [35 + sessionIdLength m, 36 + sessionIdLength m]
            ++ memcpyReads (37 + sessionIdLength m) (cipherSuitesLength m)
            ++ [37 + sessionIdLength m + cipherSuitesLength m] }
      else
        { code := 0,
          hello := some
            { version := { major := m 0, minor := m 1 },
              random := { time := helloTime m, random_bytes := memcpy m 6 28 },
              sessionId :=
                { length := sessionIdLength m, sessionId := memcpy m 35 (sessionIdLength m) },
              csCollection :=
                { length := cipherSuitesLength m,
                  cipherSuites := memcpy m (37 + sessionIdLength m) (cipherSuitesLength m) },
              compresionMethod :=
                { length := 1,
                  compresionMethod := m (38 + sessionIdLength m + cipherSuitesLength m) },
              hasExtensions := true,
              extensions := memcpy m (39 + sessionIdLength m + cipherSuitesLength m)
                (size - (39 + sessionIdLength m + cipherSuitesLength m)) },
          reads := helloPrefixReads ++ memcpyReads 35 (sessionIdLength m)
            ++ [35 + sessionIdLength m, 36 + sessionIdLength m]
            ++ memcpyReads (37 + sessionIdLength m) (cipherSuitesLength m)
            ++ [37 + sessionIdLength m + cipherSuitesLength m]
            ++ [38 + sessionIdLength m + cipherSuitesLength m]
            ++ memcpyReads (39 + sessionIdLength m + cipherSuitesLength m)
                (size - (39 + sessionIdLength m + cipherSuitesLength m)) } := by
  have e1 : 35 + sessionIdLength m + 1 = 36 + sessionIdLength m := by omega
  have e2 : 35 + sessionIdLength m + 2 = 37 + sessionIdLength m := by omega
  have e3 : 37 + sessionIdLength m + cipherSuitesLength m + 3
      = 40 + sessionIdLength m + cipherSuitesLength m := by omega
  have e4 : 37 + sessionIdLength m + cipherSuitesLength m + 1
      = 38 + sessionIdLength m + cipherSuitesLength m := by omega
  have e5 : 37 + sessionIdLength m + cipherSuitesLength m + 2
      = 39 + sessionIdLength m + cipherSuitesLength m := by omega
  have eC : (m (35 + sessionIdLength m)).val * 256 + (m (36 + sessionIdLength m)).val
      = cipherSuitesLength m := rfl
  rw [parse_client_hello_session_id_eq]
  refine if_congr Iff.rfl rfl (if_congr Iff.rfl rfl (if_congr Iff.rfl rfl ?_))
  rw [parse_client_hello_cipher_suites_eq _ _ _ _ _ rfl]
  simp only [e1, e2, eC]
  refine if_congr Iff.rfl rfl ?_
  rw [parse_client_hello_compression_eq]
  simp only [e3, e4, e5]

/-- Return code of `parse_client_hello`. -/
theorem parse_client_hello_code (m : Buffer) (size : Nat) :
    (parse_client_hello m size).code =
      if size < 38 then INVALID_FILE_LENGTH
      else if is_valid_tls_version (m 0) (m 1) = false then INVALID_VERSION
      else if sessionIdLength m + cipherSuitesLength m + 40 ≤ size ∧
          (m (37 + sessionIdLength m + cipherSuitesLength m)).val = 1 then 0
      else INVALID_FILE_LENGTH := by
  rw [parse_client_hello_eq]
  split_ifs <;> first | rfl | (exfalso; omega)

/-- Success of `parse_client_hello`. -/
theorem parse_client_hello_ok_iff (m : Buffer) (size : Nat) :
    (parse_client_hello m size).code = 0 ↔
      (is_valid_tls_version (m 0) (m 1) = true ∧
        sessionIdLength m + cipherSuitesLength m + 40 ≤ size ∧
        (m (37 + sessionIdLength m + cipherSuitesLength m)).val = 1) := by
  rw [parse_client_hello_code]
  simp only [INVALID_FILE_LENGTH, INVALID_VERSION]
  split_ifs <;> simp_all
  all_goals omega

/-- Structure `parse_client_hello` builds from a body it accepts. -/
theorem parse_client_hello_ok_eq (m : Buffer) (size : Nat)
    (hv : is_valid_tls_version (m 0) (m 1) = true)
    (hs : sessionIdLength m + cipherSuitesLength m + 40 ≤ size)
    (hc : (m (37 + sessionIdLength m + cipherSuitesLength m)).val = 1) :
    (parse_client_hello m size).hello = some
      { version := { major := m 0, minor := m 1 },
        random := { time := helloTime m, random_bytes := memcpy m 6 28 },
        sessionId :=
          { length := sessionIdLength m, sessionId := memcpy m 35 (sessionIdLength m) },
        csCollection :=
          { length := cipherSuitesLength m,
            cipherSuites := memcpy m (37 + sessionIdLength m) (cipherSuitesLength m) },
        compresionMethod :=
          { length := 1,
            compresionMethod := m (38 + sessionIdLength m + cipherSuitesLength m) },
        hasExtensions := true,
        extensions := memcpy m (39 + sessionIdLength m + cipherSuitesLength m)
          (size - (39 + sessionIdLength m + cipherSuitesLength m)) } := by
  rw [parse_client_hello_eq, if_neg (show ¬ size < 38 by omega), if_neg (by simp [hv]),
    if_neg (show ¬ (0 < sessionIdLength m ∧ size < sessionIdLength m + 34) by omega),
    if_neg (show ¬ (0 < cipherSuitesLength m ∧
      size < 37 + sessionIdLength m + cipherSuitesLength m) by omega),
    if_neg (show ¬ size < 40 + sessionIdLength m + cipherSuitesLength m by omega),
    if_neg (not_not.mpr hc)]

/-- The tail of `parse_server_hello` in closed form. -/
theorem parse_server_hello_cipher_suite_eq (m : Buffer) (size : Nat) (sh : ServerHello)
    (pos : Nat) (reads : List Nat) (hz : sh.hasExtensions = false) (hx : sh.extensions = []) :
    parse_server_hello_cipher_suite m size sh pos reads =
      if size < pos + 3 then
        { code := INVALID_FILE_LENGTH, hello := none, reads := reads ++ [pos, pos + 1] }
      else
        { code := 0,
          hello := some { sh with
            cipherSuite := (m pos, m (pos + 1)),
            compresionMethod := m (pos + 2),
            hasExtensions := decide (pos + 3 < size),
            extensions := memcpy m (pos + 3) (size - (pos + 3)) },
          reads := reads ++ [pos, pos + 1] ++ [pos + 2]
            ++ memcpyReads (pos + 3) (size - (pos + 3)) } := by
  unfold parse_server_hello_cipher_suite
  by_cases h1 : size < pos + 2 + 1
  · rw [if_pos h1, if_pos (show size < pos + 3 by omega)]
  · rw [if_neg h1, if_neg (show ¬ size < pos + 3 by omega)]
    by_cases h3 : size ≠ pos + 2 + 1
    · rw [if_pos h3]
      have h4 : pos + 3 < size := by omega
      simp [h4]
    · rw [if_neg h3]
      have h2 : size = pos + 3 := by omega
      subst h2
      cases sh with
      | mk v r s c cm he ex =>
        simp only at hz hx
        subst hz hx
        simp [memcpy, memcpyReads]

/-- Closed form of `parse_server_hello`: one branch per `return` of the source,
with the offsets written out. -/
theorem parse_server_hello_eq (m : Buffer) (size : Nat) :
    parse_server_hello m size =
      if size < 38 then { code := INVALID_FILE_LENGTH, hello := none, reads := [] }
      else if is_valid_tls_version (m 0) (m 1) = false then
        { code := INVALID_VERSION, hello := none, reads := [0, 1] }
      else if 0 < sessionIdLength m ∧ size < sessionIdLength m + 34 then
        { code := INVALID_FILE_LENGTH, hello := none, reads := helloPrefixReads }
      else if size < 38 + sessionIdLength m then
        { code := INVALID_FILE_LENGTH, hello := none,
          reads := helloPrefixReads ++ memcpyReads 35 (sessionIdLength m)
            ++ [35 + sessionIdLength m, 36 + sessionIdLength m] }
      else
        { code := 0,
          hello := some
            { version := { major := m 0, minor := m 1 },
              random := { time := helloTime m, random_bytes := memcpy m 6 28 },
              sessionId :=
                { length := sessionIdLength m, sessionId := memcpy m 35 (sessionIdLength m) },
              cipherSuite := (m (35 + sessionIdLength m), m (36 + sessionIdLength m)),
              compresionMethod := m (37 + sessionIdLength m),
              hasExtensions := decide (38 + sessionIdLength m < size),
              extensions := memcpy m (38 + sessionIdLength m) (size - (38 + sessionIdLength m)) },
          reads := helloPrefixReads ++ memcpyReads 35 (sessionIdLength m)
            ++ [35 + sessionIdLength m, 36 + sessionIdLength m]
            ++ [37 + sessionIdLength m]
            ++ memcpyReads (38 + sessionIdLength m) (size - (38 + sessionIdLength m)) } := by
  have e1 : 35 + (m 34).val + 1 = 36 + (m 34).val := by omega
  have e2 : 35 + (m 34).val + 2 = 37 + (m 34).val := by omega
  have e3 : 35 + (m 34).val + 3 = 38 + (m 34).val := by omega
  unfold parse_server_hello
  simp only [MIN_SERVER_HELLO_SIZE, HELLO_RANDOM_BYTES_SIZE, be32_eq, Nat.zero_add,
    Nat.reduceAdd, sessionIdLength, helloTime, helloPrefixReads]
  by_cases h38 : size < 38
  · rw [if_pos h38, if_pos h38]
  · rw [if_neg h38, if_neg h38]
    by_cases hv : is_valid_tls_version (m 0) (m 1) = false
    · rw [if_pos hv, if_pos hv]
    · rw [if_neg hv, if_neg hv]
      by_cases hL : (m 34).val > 0
      · rw [if_pos hL]
        by_cases hs : size < (m 34).val + 28 + 4 + 2
        · rw [if_pos hs, if_pos ⟨hL, by omega⟩]
          rfl
        · rw [if_neg hs, if_neg (fun h => hs (by omega)),
            parse_server_hello_cipher_suite_eq _ _ _ _ _ rfl rfl]
          simp only [e1, e2, e3]
          rfl
      · have h0 : (m 34).val = 0 := by omega
        rw [if_neg hL, if_neg (fun h => hL h.1),
          parse_server_hello_cipher_suite_eq _ _ _ _ _ rfl rfl]
        simp only [h0, memcpy_zero, memcpyReads_zero, List.append_nil, Nat.add_zero,
          Nat.reduceAdd]
        rfl

/-- Return code of `parse_server_hello`. -/
theorem parse_server_hello_code (m : Buffer) (size : Nat) :
    (parse_server_hello m size).code =
      if size < 38 then INVALID_FILE_LENGTH
      else if is_valid_tls_version (m 0) (m 1) = false then INVALID_VERSION
      else if 38 + sessionIdLength m ≤ size then 0
      else INVALID_FILE_LENGTH := by
  rw [parse_server_hello_eq]
  split_ifs <;> first | rfl | (exfalso; omega)

/-- Success of `parse_server_hello`. -/
theorem parse_server_hello_ok_iff (m : Buffer) (size : Nat) :
    (parse_server_hello m size).code = 0 ↔
      (38 ≤ size ∧ is_valid_tls_version (m 0) (m 1) = true ∧ 38 + sessionIdLength m ≤ size) := by
  rw [parse_server_hello_code]
  simp only [INVALID_FILE_LENGTH, INVALID_VERSION]
  split_ifs <;> simp_all

/-- Structure `parse_server_hello` builds from a body it accepts. -/
theorem parse_server_hello_ok_eq (m : Buffer) (size : Nat)
    (hv : is_valid_tls_version (m 0) (m 1) = true)
    (hs : 38 + sessionIdLength m ≤ size) :
    (parse_server_hello m size).hello = some
      { version := { major := m 0, minor := m 1 },
        random := { time := helloTime m, random_bytes := memcpy m 6 28 },
        sessionId :=
          { length := sessionIdLength m, sessionId := memcpy m 35 (sessionIdLength m) },
        cipherSuite := (m (35 + sessionIdLength m), m (36 + sessionIdLength m)),
        compresionMethod := m (37 + sessionIdLength m),
        hasExtensions := decide (38 + sessionIdLength m < size),
        extensions := memcpy m (38 + sessionIdLength m) (size - (38 + sessionIdLength m)) } := by
  rw [parse_server_hello_eq, if_neg (show ¬ size < 38 by omega), if_neg (by simp [hv]),
    if_neg (show ¬ (0 < sessionIdLength m ∧ size < sessionIdLength m + 34) by omega),
    if_neg (show ¬ size < 38 + sessionIdLength m by omega)]

/-- What the bytes of an encoded ClientHello are, field by field. -/
theorem encodeClientHello_layout (v : ProtocolVersion) (t : Nat) (random suites : List Byte)
    (method : Byte) (ext : List Byte) (hr : random.length = 28) (hs : suites.length = 4) :
    (encodeClientHello v t random suites method ext).length = 43 + ext.length ∧
    bufferOf (encodeClientHello v t random suites method ext) 0 = v.major ∧
    bufferOf (encodeClientHello v t random suites method ext) 1 = v.minor ∧
    bufferOf (encodeClientHello v t random suites method ext) 2 = byteOf t 3 ∧
    bufferOf (encodeClientHello v t random suites method ext) 3 = byteOf t 2 ∧
    bufferOf (encodeClientHello v t random suites method ext) 4 = byteOf t 1 ∧
    bufferOf (encodeClientHello v t random suites method ext) 5 = byteOf t 0 ∧
    memcpy (bufferOf (encodeClientHello v t random suites method ext)) 6 28 = random ∧
    bufferOf (encodeClientHello v t random suites method ext) 34 = 0 ∧
    bufferOf (encodeClientHello v t random suites method ext) 35 = 0 ∧
    bufferOf (encodeClientHello v t random suites method ext) 36 = 4 ∧
    memcpy (bufferOf (encodeClientHello v t random suites method ext)) 37 4 = suites ∧
    bufferOf (encodeClientHello v t random suites method ext) 41 = 1 ∧
    bufferOf (encodeClientHello v t random suites method ext) 42 = method ∧
    memcpy (bufferOf (encodeClientHello v t random suites method ext)) 43 ext.length = ext := by
  refine ⟨?_, rfl, rfl, rfl, rfl, rfl, rfl, ?_, ?_, ?_, ?_, ?_, ?_, ?_, ?_⟩
  · simp [encodeClientHello, hr, hs]; omega
  · have e : encodeClientHello v t random suites method ext
        = [v.major, v.minor, byteOf t 3, byteOf t 2, byteOf t 1, byteOf t 0]
          ++ (random ++ ([0] ++ [0, 4] ++ suites ++ [1] ++ [method] ++ ext)) := by
      simp [encodeClientHello]
    rw [e]
    exact memcpy_bufferOf_append _ _ _ _ _ rfl hr
  · have e : encodeClientHello v t random suites method ext
        = ([v.major, v.minor, byteOf t 3, byteOf t 2, byteOf t 1, byteOf t 0] ++ random)
          ++ 0 :: ([0, 4] ++ suites ++ [1] ++ [method] ++ ext) := by
      simp [encodeClientHello]
    rw [e]
    exact bufferOf_append_cons _ _ _ _ (by simp [hr])
  · have e : encodeClientHello v t random suites method ext
        = ([v.major, v.minor, byteOf t 3, byteOf t 2, byteOf t 1, byteOf t 0] ++ random ++ [0])
          ++ 0 :: ([4] ++ suites ++ [1] ++ [method] ++ ext) := by
      simp [encodeClientHello]
    rw [e]
    exact bufferOf_append_cons _ _ _ _ (by simp [hr])
  · have e : encodeClientHello v t random suites method ext
        = ([v.major, v.minor, byteOf t 3, byteOf t 2, byteOf t 1, byteOf t 0] ++ random
            ++ [0, 0])
          ++ 4 :: (suites ++ [1] ++ [method] ++ ext) := by
      simp [encodeClientHello]
    rw [e]
    exact bufferOf_append_cons _ _ _ _ (by simp [hr])
  · have e : encodeClientHello v t random suites method ext
        = ([v.major, v.minor, byteOf t 3, byteOf t 2, byteOf t 1, byteOf t 0] ++ random
            ++ [0, 0, 4])
          ++ (suites ++ ([1] ++ [method] ++ ext)) := by
      simp [encodeClientHello]
    rw [e]
    exact memcpy_bufferOf_append _ _ _ _ _ (by simp [hr]) hs
  · have e : encodeClientHello v t random suites method ext
        = ([v.major, v.minor, byteOf t 3, byteOf t 2, byteOf t 1, byteOf t 0] ++ random
            ++ [0, 0, 4] ++ suites)
          ++ 1 :: ([method] ++ ext) := by
      simp [encodeClientHello]
    rw [e]
    exact bufferOf_append_cons _ _ _ _ (by simp [hr, hs])
  · have e : encodeClientHello v t random suites method ext
        = ([v.major, v.minor, byteOf t 3, byteOf t 2, byteOf t 1, byteOf t 0] ++ random
            ++ [0, 0, 4] ++ suites ++ [1])
          ++ method :: ext := by
      simp [encodeClientHello]
    rw [e]
    exact bufferOf_append_cons _ _ _ _ (by simp [hr, hs])
  · have e : encodeClientHello v t random suites method ext
        = ([v.major, v.minor, byteOf t 3, byteOf t 2, byteOf t 1, byteOf t 0] ++ random
            ++ [0, 0, 4] ++ suites ++ [1, method])
          ++ (ext ++ []) := by
      simp [encodeClientHello]
    rw [e]
    exact memcpy_bufferOf_append _ _ _ _ _ (by simp [hr, hs]) rfl

/-! ## Claims C1 to C10 -/

/-- Claim C1.  For every buffer whose byte 0 is 22 (Handshake) and whose bytes 1-2
are a supported version, `initialize_tls_structure` returns 0 if and only if
`F + 5 = size` and `F = M + 4`, with `F` the big-endian value of bytes 3-4 and
`M` the big-endian value of bytes 6-8; when either equality fails it returns
`INVALID_FILE_LENGTH`.  Equivalently (second conjunct, no assumption on the
header): it returns 0 iff `size >= 9`, byte 0 is 22, the version is supported,
`F = size - 5` and `M = size - 9`. -/
theorem initialize_tls_structure_succeeds_iff_lengths (raw : Buffer) (size : Int)
    (tls_message : HandshakeMessage) :
    ((raw 0).val = HANDSHAKE → is_valid_tls_version (raw 1) (raw 2) = true →
      (((initialize_tls_structure raw size tls_message).code = 0 ↔
          ((fragmentLength raw : Int) + 5 = size ∧ fragmentLength raw = bodyLength raw + 4)) ∧
        (¬ ((fragmentLength raw : Int) + 5 = size ∧ fragmentLength raw = bodyLength raw + 4) →
          (initialize_tls_structure raw size tls_message).code = INVALID_FILE_LENGTH))) ∧
    ((initialize_tls_structure raw size tls_message).code = 0 ↔
      (9 ≤ size ∧ (raw 0).val = HANDSHAKE ∧ is_valid_tls_version (raw 1) (raw 2) = true ∧
        (fragmentLength raw : Int) = size - 5 ∧ (bodyLength raw : Int) = size - 9)) := by
  rw [initialize_tls_structure_code]
  simp only [HANDSHAKE, INVALID_FILE_LENGTH, INVALID_CONTENT_TYPE, INVALID_VERSION]
  refine ⟨fun h22 hv => ?_, ?_⟩
  · split_ifs <;> simp_all
    all_goals omega
  · split_ifs <;> simp_all <;> omega

/-- Instance of C1: the nine byte ServerHelloDone record is accepted with
`size = 9` and rejected with `INVALID_FILE_LENGTH` when `size = 10`. -/
theorem initialize_tls_structure_succeeds_iff_lengths_witness :
    (initialize_tls_structure (bufferOf serverHelloDoneRecord) 9 HandshakeMessage.zero).code = 0 ∧
    (initialize_tls_structure (bufferOf serverHelloDoneRecord) 10 HandshakeMessage.zero).code
      = INVALID_FILE_LENGTH :=
  ⟨((initialize_tls_structure_succeeds_iff_lengths (bufferOf serverHelloDoneRecord) 9
      HandshakeMessage.zero).1 (by decide) (by decide)).1.mpr ⟨by decide, by decide⟩,
   ((initialize_tls_structure_succeeds_iff_lengths (bufferOf serverHelloDoneRecord) 10
      HandshakeMessage.zero).1 (by decide) (by decide)).2 (by decide)⟩

/-- Claim C2, evaluated at a failing input.  On the 38 byte body
`helloBodySessionIdOverrun` (session id length byte 4) the guard
`size < length + 34` lets the session id copy through, which reads offsets 35 to
38; the cipher suite length is then read at offsets 39 and 40.  Offsets 38, 39
and 40 lie outside the 38 byte body, so not every offset read is below `size`. -/
theorem parse_client_hello_reads_past_body :
    helloBodySessionIdOverrun.length = 38 ∧
    (parse_client_hello (bufferOf helloBodySessionIdOverrun) 38).code = INVALID_FILE_LENGTH ∧
    (parse_client_hello (bufferOf helloBodySessionIdOverrun) 38).reads
      = helloPrefixReads ++ [35, 36, 37, 38] ++ [39, 40] ∧
    ¬ (∀ i ∈ (parse_client_hello (bufferOf helloBodySessionIdOverrun) 38).reads, i < 38) := by
  decide

/-- Claim C3 as stated fails for `N = 0`: the encoded ClientHello without extension
bytes (43 bytes) is rejected with `INVALID_FILE_LENGTH`. -/
theorem client_hello_round_trip_fails_without_extensions :
    clientHelloWithoutExtensions.length = 43 ∧
    (parse_client_hello (bufferOf clientHelloWithoutExtensions) 43).code
      = INVALID_FILE_LENGTH ∧
    (parse_client_hello (bufferOf clientHelloWithoutExtensions) 43).code ≠ 0 := by
  decide

/-- Claim C3, amended.  For every supported version, 32-bit timestamp, 28 random
bytes, 4 cipher suite bytes, compression method byte and extension bytes, with
a total body length of at most 65535 (so that the `uint16_t` size parameter
holds it unchanged), decoding the encoded body succeeds and reproduces every
field, with `hasExtensions = true`, whenever there is at least one extension
byte; with no extension byte the decoder returns `INVALID_FILE_LENGTH`, because
it asks for three bytes behind the cipher suite list. -/
theorem client_hello_round_trip (v : ProtocolVersion) (t : Nat) (random suites : List Byte)
    (method : Byte) (ext : List Byte)
    (hv : is_valid_tls_version v.major v.minor = true) (ht : t < 2 ^ 32)
    (hr : random.length = 28) (hs : suites.length = 4)
    (hlen16 : (encodeClientHello v t random suites method ext).length ≤ 65535) :
    (ext ≠ [] →
      (parse_client_hello (bufferOf (encodeClientHello v t random suites method ext))
          (encodeClientHello v t random suites method ext).length).code = 0 ∧
      (parse_client_hello (bufferOf (encodeClientHello v t random suites method ext))
          (encodeClientHello v t random suites method ext).length).hello = some
        { version := v,
          random := { time := t, random_bytes := random },
          sessionId := { length := 0, sessionId := [] },
          csCollection := { length := 4, cipherSuites := suites },
          compresionMethod := { length := 1, compresionMethod := method },
          hasExtensions := true,
          extensions := ext }) ∧
    (ext = [] →
      (parse_client_hello (bufferOf (encodeClientHello v t random suites method ext))
          (encodeClientHello v t random suites method ext).length).code
        = INVALID_FILE_LENGTH) ∧
    (encodeClientHello v t random suites method ext).length % 2 ^ 16
      = (encodeClientHello v t random suites method ext).length := by
  have h16 : (encodeClientHello v t random suites method ext).length % 2 ^ 16
      = (encodeClientHello v t random suites method ext).length :=
    Nat.mod_eq_of_lt (by norm_num; omega)
  obtain ⟨hlen, h0, h1, h2, h3, h4, h5, hrand, h34, h35, h36, hsu, h41, h42, hext⟩ :=
    encodeClientHello_layout v t random suites method ext hr hs
  have hL : sessionIdLength (bufferOf (encodeClientHello v t random suites method ext)) = 0 := by
    simp only [sessionIdLength, h34]; rfl
  have hC : cipherSuitesLength (bufferOf (encodeClientHello v t random suites method ext))
      = 4 := by
    simp only [cipherSuitesLength, hL, Nat.add_zero, h35, h36]; rfl
  have hT : helloTime (bufferOf (encodeClientHello v t random suites method ext)) = t := by
    simp only [helloTime, h2, h3, h4, h5]
    exact byteOf_be32 t ht
  have hv2 : is_valid_tls_version (bufferOf (encodeClientHello v t random suites method ext) 0)
      (bufferOf (encodeClientHello v t random suites method ext) 1) = true := by
    rw [h0, h1]; exact hv
  refine ⟨?_, ?_, h16⟩
  · intro hne
    have hN : 0 < ext.length := List.length_pos.mpr hne
    have hsz : sessionIdLength (bufferOf (encodeClientHello v t random suites method ext))
        + cipherSuitesLength (bufferOf (encodeClientHello v t random suites method ext)) + 40
        ≤ (encodeClientHello v t random suites method ext).length := by
      rw [hL, hC, hlen]; omega
    have hcm : (bufferOf (encodeClientHello v t random suites method ext)
        (37 + sessionIdLength (bufferOf (encodeClientHello v t random suites method ext))
          + cipherSuitesLength (bufferOf (encodeClientHello v t random suites method ext)))).val
        = 1 := by
      rw [hL, hC, h41]; rfl
    refine ⟨(parse_client_hello_ok_iff _ _).2 ⟨hv2, hsz, hcm⟩, ?_⟩
    rw [parse_client_hello_ok_eq _ _ hv2 hsz hcm, hT, hL, hC, hlen]
    have e1 : 43 + ext.length - (39 + 0 + 4) = ext.length := by omega
    simp only [Nat.add_zero, Nat.reduceAdd, e1, hrand, hsu, hext, h0, h1, h42, memcpy_zero]
  · intro he
    subst he
    rw [parse_client_hello_code, hL, hC, hlen]
    rw [if_neg (by simp), if_neg (by simp [hv2]), if_neg (by simp)]

/-- Instance of C3 (amended): the encoded body with one extension byte has 44
bytes and decodes. -/
theorem client_hello_round_trip_witness :
    clientHelloWithOneExtensionByte.length ≤ 65535 ∧
    (parse_client_hello (bufferOf clientHelloWithOneExtensionByte)
      clientHelloWithOneExtensionByte.length).code = 0 :=
  ⟨by decide,
   ((client_hello_round_trip { major := 3, minor := 3 } 0 (List.replicate 28 0) [0, 47, 0, 53] 0
      [255] (by decide) (by decide) (by decide) (by decide) (by decide)).1 (by decide)).1⟩

/-- Claim C4 as stated fails: the four byte buffer `17 03 03 00` is rejected with
`INVALID_CONTENT_TYPE`, not with `INVALID_FILE_LENGTH`. -/
theorem short_buffer_not_always_invalid_length :
    (initialize_tls_structure (bufferOf shortApplicationDataRecord) 4
        HandshakeMessage.zero).code = INVALID_CONTENT_TYPE ∧
    (initialize_tls_structure (bufferOf shortApplicationDataRecord) 4
        HandshakeMessage.zero).code ≠ INVALID_FILE_LENGTH := by
  decide

/-- Claim C4, amended.  On a buffer shorter than 6 bytes `initialize_tls_structure`
never succeeds.  It returns `INVALID_FILE_LENGTH` when `size <= 3`; for sizes 4
and 5 content type and version are checked first: `INVALID_CONTENT_TYPE` when
byte 0 is not 22, else `INVALID_VERSION` when the version is unsupported, else
`INVALID_FILE_LENGTH`. -/
theorem initialize_tls_structure_short_buffer (raw : Buffer) (size : Int)
    (tls_message : HandshakeMessage) (hsize : size < 6) :
    (initialize_tls_structure raw size tls_message).code ≠ 0 ∧
    (size ≤ 3 → (initialize_tls_structure raw size tls_message).code = INVALID_FILE_LENGTH) ∧
    (3 < size → (raw 0).val ≠ HANDSHAKE →
      (initialize_tls_structure raw size tls_message).code = INVALID_CONTENT_TYPE) ∧
    (3 < size → (raw 0).val = HANDSHAKE → is_valid_tls_version (raw 1) (raw 2) = false →
      (initialize_tls_structure raw size tls_message).code = INVALID_VERSION) ∧
    (3 < size → (raw 0).val = HANDSHAKE → is_valid_tls_version (raw 1) (raw 2) = true →
      (initialize_tls_structure raw size tls_message).code = INVALID_FILE_LENGTH) := by
  rw [initialize_tls_structure_code]
  simp only [HANDSHAKE, INVALID_FILE_LENGTH, INVALID_CONTENT_TYPE, INVALID_VERSION]
  split_ifs <;> simp_all
  all_goals omega

/-- Instance of C4 (amended): the four byte buffer `16 03 03 00` is rejected with
`INVALID_FILE_LENGTH`. -/
theorem initialize_tls_structure_short_buffer_witness :
    (initialize_tls_structure (bufferOf truncatedRecord) 4 HandshakeMessage.zero).code
      = INVALID_FILE_LENGTH :=
  (initialize_tls_structure_short_buffer (bufferOf truncatedRecord) 4 HandshakeMessage.zero
    (by decide)).2.2.2.2 (by decide) (by decide) (by decide)

/-- Claim C5.  Whenever `initialize_tls_structure` returns 0 the structure holds
`cType = 22`, the version bytes 1-2, `fLength = raw[3] * 256 + raw[4] = size - 5`,
`hsType = raw[5]`, `mLength = raw[6] * 65536 + raw[7] * 256 + raw[8] = size - 9`,
and `body` has length `mLength` and is byte for byte `raw[9 .. size - 1]`. -/
theorem initialize_tls_structure_populates (raw : Buffer) (size : Int)
    (tls_message : HandshakeMessage)
    (hok : (initialize_tls_structure raw size tls_message).code = 0) :
    (initialize_tls_structure raw size tls_message).tls_message.cType = 22 ∧
    (initialize_tls_structure raw size tls_message).tls_message.version
      = { major := raw 1, minor := raw 2 } ∧
    (initialize_tls_structure raw size tls_message).tls_message.fLength
      = (raw 3).val * 256 + (raw 4).val ∧
    ((initialize_tls_structure raw size tls_message).tls_message.fLength : Int) = size - 5 ∧
    (initialize_tls_structure raw size tls_message).tls_message.hsType = (raw 5).val ∧
    (initialize_tls_structure raw size tls_message).tls_message.mLength
      = (raw 6).val * 65536 + (raw 7).val * 256 + (raw 8).val ∧
    ((initialize_tls_structure raw size tls_message).tls_message.mLength : Int) = size - 9 ∧
    (initialize_tls_structure raw size tls_message).tls_message.body.length
      = (initialize_tls_structure raw size tls_message).tls_message.mLength ∧
    (∀ i : Nat, (9 + i : Int) < size →
      (initialize_tls_structure raw size tls_message).tls_message.body[i]?
        = some (raw (9 + i))) := by
  obtain ⟨h1, h2, h3, h4, h5⟩ := (initialize_tls_structure_ok_iff raw size tls_message).1 hok
  rw [initialize_tls_structure_ok_eq raw size tls_message h1 h2 h3 h4 h5]
  simp only [fragmentLength, bodyLength] at h4 h5
  refine ⟨rfl, rfl, rfl, ?_, rfl, rfl, ?_, memcpy_length _ _ _, ?_⟩
  · show (((raw 3).val * 256 + (raw 4).val : Nat) : Int) = size - 5
    omega
  · show (((raw 6).val * 65536 + (raw 7).val * 256 + (raw 8).val : Nat) : Int) = size - 9
    omega
  · intro i hi
    exact memcpy_getElem? raw 9 _ i (by unfold bodyLength; omega)

/-- Instance of C5: the eleven byte ClientKeyExchange record is accepted and its
body has the length the structure records. -/
theorem initialize_tls_structure_populates_witness :
    (initialize_tls_structure (bufferOf clientKeyExchangeRecord) 11
        HandshakeMessage.zero).code = 0 ∧
    (initialize_tls_structure (bufferOf clientKeyExchangeRecord) 11
        HandshakeMessage.zero).tls_message.body.length
      = (initialize_tls_structure (bufferOf clientKeyExchangeRecord) 11
        HandshakeMessage.zero).tls_message.mLength :=
  ⟨by decide,
   (initialize_tls_structure_populates (bufferOf clientKeyExchangeRecord) 11
      HandshakeMessage.zero (by decide)).2.2.2.2.2.2.2.1⟩

/-- Claim C6.  With `L = m[34]` and `C = m[35 + L] * 256 + m[36 + L]`,
`parse_client_hello` returns 0 iff the version `(m[0], m[1])` is supported,
`size >= L + C + 40` and `m[37 + L + C] = 1`; it returns `INVALID_VERSION` iff
`size >= 38` and the version is unsupported, and `INVALID_FILE_LENGTH` in every
other failing case.  On success the decoded fields are the timestamp of
`m[2..5]`, `random_bytes = m[6..33]`, `sessionId = m[35..34 + L]`,
`cipherSuites = m[37 + L..36 + L + C]`, the compression method `m[38 + L + C]`
and `extensions = m[39 + L + C..size - 1]`. -/
theorem parse_client_hello_acceptance_and_fields (m : Buffer) (size : Nat) :
    ((parse_client_hello m size).code = 0 ↔
      (is_valid_tls_version (m 0) (m 1) = true ∧
        sessionIdLength m + cipherSuitesLength m + 40 ≤ size ∧
        (m (37 + sessionIdLength m + cipherSuitesLength m)).val = 1)) ∧
    ((parse_client_hello m size).code = INVALID_VERSION ↔
      (38 ≤ size ∧ is_valid_tls_version (m 0) (m 1) = false)) ∧
    ((parse_client_hello m size).code ≠ 0 →
      (parse_client_hello m size).code ≠ INVALID_VERSION →
      (parse_client_hello m size).code = INVALID_FILE_LENGTH) ∧
    ((parse_client_hello m size).code = 0 →
      ∃ h : ClientHello, (parse_client_hello m size).hello = some h ∧
        h.version = { major := m 0, minor := m 1 } ∧
        h.random.time = (m 2).val * 16777216 + (m 3).val * 65536 + (m 4).val * 256 + (m 5).val ∧
        h.random.random_bytes = memcpy m 6 28 ∧
        h.sessionId.length = sessionIdLength m ∧
        h.sessionId.sessionId = memcpy m 35 (sessionIdLength m) ∧
        h.csCollection.length = cipherSuitesLength m ∧
        h.csCollection.cipherSuites
          = memcpy m (37 + sessionIdLength m) (cipherSuitesLength m) ∧
        h.compresionMethod.length = 1 ∧
        h.compresionMethod.compresionMethod
          = m (38 + sessionIdLength m + cipherSuitesLength m) ∧
        h.extensions = memcpy m (39 + sessionIdLength m + cipherSuitesLength m)
          (size - (39 + sessionIdLength m + cipherSuitesLength m))) := by
  refine ⟨parse_client_hello_ok_iff m size, ?_, ?_, ?_⟩
  · rw [parse_client_hello_code]
    simp only [INVALID_FILE_LENGTH, INVALID_VERSION]
    split_ifs <;> simp_all
  · rw [parse_client_hello_code]
    simp only [INVALID_FILE_LENGTH, INVALID_VERSION]
    split_ifs <;> simp_all
  · intro hok
    obtain ⟨hv, hs, hc⟩ := (parse_client_hello_ok_iff m size).1 hok
    exact ⟨_, parse_client_hello_ok_eq m size hv hs hc, rfl, rfl, rfl, rfl, rfl, rfl, rfl, rfl,
      rfl, rfl⟩

/-- Instance of C6: the 40 byte body `minimalClientHelloBody` is accepted; cut to
39 bytes it is rejected with `INVALID_FILE_LENGTH`. -/
theorem parse_client_hello_acceptance_and_fields_witness :
    (parse_client_hello (bufferOf minimalClientHelloBody) 40).code = 0 ∧
    (parse_client_hello (bufferOf minimalClientHelloBody) 39).code = INVALID_FILE_LENGTH :=
  ⟨(parse_client_hello_acceptance_and_fields (bufferOf minimalClientHelloBody) 40).1.mpr
      (by decide),
   (parse_client_hello_acceptance_and_fields (bufferOf minimalClientHelloBody) 39).2.2.1
      (by decide) (by decide)⟩

/-- Claim C7 as stated fails: no body of exactly 38 bytes is accepted by
`parse_client_hello`, whatever its contents. -/
theorem no_client_hello_of_38_bytes :
    ¬ ∃ m : Buffer, (parse_client_hello m 38).code = 0 := by
  rintro ⟨m, h⟩
  have := (parse_client_hello_ok_iff m 38).1 h
  omega

/-- Claim C7, amended.  `parse_client_hello` returns `INVALID_FILE_LENGTH` for every
body with `size < 38`; every accepted body has `size >= 40`; and a body of
exactly 40 bytes (empty session id, empty cipher suite list, one compression
method, one extension byte) is accepted.  The least accepted size is 40. -/
theorem parse_client_hello_least_accepted_size :
    (∀ (m : Buffer) (size : Nat), size < 38 →
      (parse_client_hello m size).code = INVALID_FILE_LENGTH) ∧
    (∀ (m : Buffer) (size : Nat), (parse_client_hello m size).code = 0 → 40 ≤ size) ∧
    (sessionIdLength (bufferOf minimalClientHelloBody) = 0 ∧
      cipherSuitesLength (bufferOf minimalClientHelloBody) = 0 ∧
      minimalClientHelloBody.length = 40 ∧
      (parse_client_hello (bufferOf minimalClientHelloBody) 40).code = 0) := by
  refine ⟨?_, ?_, by decide, by decide, by decide, by decide⟩
  · intro m size h
    rw [parse_client_hello_code, if_pos h]
  · intro m size h
    have := (parse_client_hello_ok_iff m size).1 h
    omega

/-- Claim C8.  With `L = m[34]`, `parse_server_hello` returns 0 iff `size >= 38`, the
version `(m[0], m[1])` is supported and `size >= 38 + L`; it returns
`INVALID_VERSION` iff `size >= 38` and the version is unsupported, and
`INVALID_FILE_LENGTH` otherwise.  On success the decoded fields are the
timestamp of `m[2..5]`, `random_bytes = m[6..33]`, `sessionId = m[35..34 + L]`,
`cipherSuite = (m[35 + L], m[36 + L])`, `compresionMethod = m[37 + L]`,
`hasExtensions` iff `size > 38 + L`, and then `extensions = m[38 + L..size - 1]`.
A body of exactly 38 bytes (empty session id, no extensions) is accepted, so
the least accepted size is 38. -/
theorem parse_server_hello_acceptance_and_fields (m : Buffer) (size : Nat) :
    ((parse_server_hello m size).code = 0 ↔
      (38 ≤ size ∧ is_valid_tls_version (m 0) (m 1) = true ∧ 38 + sessionIdLength m ≤ size)) ∧
    ((parse_server_hello m size).code = INVALID_VERSION ↔
      (38 ≤ size ∧ is_valid_tls_version (m 0) (m 1) = false)) ∧
    ((parse_server_hello m size).code ≠ 0 →
      (parse_server_hello m size).code ≠ INVALID_VERSION →
      (parse_server_hello m size).code = INVALID_FILE_LENGTH) ∧
    ((parse_server_hello m size).code = 0 →
      ∃ h : ServerHello, (parse_server_hello m size).hello = some h ∧
        h.version = { major := m 0, minor := m 1 } ∧
        h.random.time = (m 2).val * 16777216 + (m 3).val * 65536 + (m 4).val * 256 + (m 5).val ∧
        h.random.random_bytes = memcpy m 6 28 ∧
        h.sessionId.length = sessionIdLength m ∧
        h.sessionId.sessionId = memcpy m 35 (sessionIdLength m) ∧
        h.cipherSuite = (m (35 + sessionIdLength m), m (36 + sessionIdLength m)) ∧
        h.compresionMethod = m (37 + sessionIdLength m) ∧
        (h.hasExtensions = true ↔ 38 + sessionIdLength m < size) ∧
        (h.hasExtensions = true →
          h.extensions
            = memcpy m (38 + sessionIdLength m) (size - (38 + sessionIdLength m)))) ∧
    (sessionIdLength (bufferOf minimalServerHelloBody) = 0 ∧
      minimalServerHelloBody.length = 38 ∧
      (parse_server_hello (bufferOf minimalServerHelloBody) 38).code = 0 ∧
      ((parse_server_hello (bufferOf minimalServerHelloBody) 38).hello.map
        (fun h => h.hasExtensions)) = some false) := by
  refine ⟨parse_server_hello_ok_iff m size, ?_, ?_, ?_, by decide, by decide, by decide,
    by decide⟩
  · rw [parse_server_hello_code]
    simp only [INVALID_FILE_LENGTH, INVALID_VERSION]
    split_ifs <;> simp_all
  · rw [parse_server_hello_code]
    simp only [INVALID_FILE_LENGTH, INVALID_VERSION]
    split_ifs <;> simp_all
  · intro hok
    obtain ⟨_, hv, hs⟩ := (parse_server_hello_ok_iff m size).1 hok
    exact ⟨_, parse_server_hello_ok_eq m size hv hs, rfl, rfl, rfl, rfl, rfl, rfl, rfl,
      by simp, fun _ => rfl⟩

/-- Instance of C8: the 38 byte body `minimalServerHelloBody` is accepted; cut to
37 bytes it is rejected with `INVALID_FILE_LENGTH`. -/
theorem parse_server_hello_acceptance_and_fields_witness :
    (parse_server_hello (bufferOf minimalServerHelloBody) 38).code = 0 ∧
    (parse_server_hello (bufferOf minimalServerHelloBody) 37).code = INVALID_FILE_LENGTH :=
  ⟨(parse_server_hello_acceptance_and_fields (bufferOf minimalServerHelloBody) 38).1.mpr
      (by decide),
   (parse_server_hello_acceptance_and_fields (bufferOf minimalServerHelloBody) 37).2.2.1
      (by decide) (by decide)⟩

/-- Claim C9, evaluated at a failing input.  On the 38 byte body
`helloBodyCipherSuiteOverrun` (session id length byte 2) the session id copy
reads offsets 35 and 36 and the two cipher suite bytes are then read at offsets
37 and 38 with no check in between.  Offset 38 lies outside the 38 byte body,
so not every offset read is below `size`. -/
theorem parse_server_hello_reads_past_body :
    helloBodyCipherSuiteOverrun.length = 38 ∧
    (parse_server_hello (bufferOf helloBodyCipherSuiteOverrun) 38).code = INVALID_FILE_LENGTH ∧
    (parse_server_hello (bufferOf helloBodyCipherSuiteOverrun) 38).reads
      = helloPrefixReads ++ [35, 36] ++ [37, 38] ∧
    ¬ (∀ i ∈ (parse_server_hello (bufferOf helloBodyCipherSuiteOverrun) 38).reads, i < 38) := by
  decide

/-- Claim C10, evaluated at a failing input.  On the four byte buffer `16 03 03 00`
the guard `size <= 3` passes, content type and version are valid, and the
fragment length is read from offsets 3 and 4.  Offset 4 lies outside the four
byte buffer, so not every offset read is below `size`. -/
theorem initialize_tls_structure_reads_past_short_buffer :
    truncatedRecord.length = 4 ∧
    (initialize_tls_structure (bufferOf truncatedRecord) 4 HandshakeMessage.zero).code
      = INVALID_FILE_LENGTH ∧
    (initialize_tls_structure (bufferOf truncatedRecord) 4 HandshakeMessage.zero).reads
      = [0, 1, 2, 1, 2, 3, 4] ∧
    ¬ (∀ i ∈ (initialize_tls_structure (bufferOf truncatedRecord) 4
          HandshakeMessage.zero).reads, i < 4) := by
  decide

/-! ## Dispatch and strict decoders: lemmas -/

/-- Version validator: true exactly for major 3 and minor 1, 2 or 3. -/
theorem is_valid_tls_version_iff (major minor : Byte) :
    is_valid_tls_version major minor = true ↔
      (major.val = 3 ∧ (minor.val = 1 ∨ minor.val = 2 ∨ minor.val = 3)) := by
  simp only [is_valid_tls_version, Bool.and_eq_true, Bool.or_eq_true, beq_iff_eq]
  tauto

/-- Return codes of `parse_client_hello`: 0, `INVALID_FILE_LENGTH` or
`INVALID_VERSION`. -/
theorem parse_client_hello_code_range (m : Buffer) (size : Nat) :
    (parse_client_hello m size).code = 0 ∨
      (parse_client_hello m size).code = INVALID_FILE_LENGTH ∨
      (parse_client_hello m size).code = INVALID_VERSION := by
  rw [parse_client_hello_code]
  split_ifs <;> simp

/-- Return codes of `parse_server_hello`: 0, `INVALID_FILE_LENGTH` or
`INVALID_VERSION`. -/
theorem parse_server_hello_code_range (m : Buffer) (size : Nat) :
    (parse_server_hello m size).code = 0 ∨
      (parse_server_hello m size).code = INVALID_FILE_LENGTH ∨
      (parse_server_hello m size).code = INVALID_VERSION := by
  rw [parse_server_hello_code]
  split_ifs <;> simp

/-- Return codes of `parse_client_key_exchange`: 0 or
`INVALID_FILE_LENGTH_FOR_CLIENT_KEY_EXCHANGE`. -/
theorem parse_client_key_exchange_code_range (m : Buffer) (size : Nat) :
    (parse_client_key_exchange m size).code = 0 ∨
      (parse_client_key_exchange m size).code = INVALID_FILE_LENGTH_FOR_CLIENT_KEY_EXCHANGE := by
  unfold parse_client_key_exchange
  dsimp only
  split_ifs <;> simp

/-- Body length of an accepted record fits 16 bits. -/
theorem bodyLength_lt_of_ok (raw : Buffer) (size : Int) (t : HandshakeMessage)
    (hok : (initialize_tls_structure raw size t).code = 0) : bodyLength raw % 2 ^ 16 = bodyLength raw := by
  obtain ⟨h1, h2, h3, h4, h5⟩ := (initialize_tls_structure_ok_iff raw size t).1 hok
  have hF : fragmentLength raw ≤ 65535 := by unfold fragmentLength; omega
  exact Nat.mod_eq_of_lt (by norm_num; omega)

/-- Result of `main` on a file the record layer rejects. -/
theorem main_of_record_error (buf : Buffer) (file_size : Int) (behind : Buffer)
    (h : (initialize_tls_structure buf file_size HandshakeMessage.zero).code ≠ 0) :
    (main buf file_size behind).err
      = (initialize_tls_structure buf file_size HandshakeMessage.zero).code := by
  unfold main
  simp only [h, ne_eq, not_false_eq_true, if_true]

/-- Result of `main` on a file the record layer accepts: the dispatch on byte 5,
with the body copied from offset 9 and its untruncated length. -/
theorem main_of_record_ok (buf : Buffer) (file_size : Int) (behind : Buffer)
    (hok : (initialize_tls_structure buf file_size HandshakeMessage.zero).code = 0) :
    main buf file_size behind =
      { err :=
          match (buf 5).val with
          | 1 => (parse_client_hello (bodyBuffer (memcpy buf 9 (bodyLength buf)) behind)
                    (bodyLength buf)).code
          | 2 => (parse_server_hello (bodyBuffer (memcpy buf 9 (bodyLength buf)) behind)
                    (bodyLength buf)).code
          | 11 => parse_certificate (bodyLength buf)
          | 12 => parse_server_key_exchange (bodyLength buf)
          | 14 => parse_server_hello_done (bodyLength buf)
          | 16 => (parse_client_key_exchange (bodyBuffer (memcpy buf 9 (bodyLength buf)) behind)
                    (bodyLength buf)).code
          | _ => UNSUPPORTED_MESSAGE_TYPE,
        tls_message :=
          { cType := 22, version := { major := buf 1, minor := buf 2 },
            fLength := fragmentLength buf, hsType := (buf 5).val, mLength := bodyLength buf,
            body := memcpy buf 9 (bodyLength buf) } } := by
  have hm := bodyLength_lt_of_ok buf file_size _ hok
  obtain ⟨h1, h2, h3, h4, h5⟩ := (initialize_tls_structure_ok_iff buf file_size _).1 hok
  unfold main
  rw [initialize_tls_structure_ok_eq buf file_size _ h1 h2 h3 h4 h5]
  simp only [ne_eq, not_true_eq_false, if_false, hm]

/-- Return code of the compression stage of `parse_client_hello`. -/
theorem parse_client_hello_compression_code (message : Buffer) (size : Nat) (ch : ClientHello)
    (pos : Nat) (reads : List Nat) :
    (parse_client_hello_compression message size ch pos reads).code =
      if pos + 3 ≤ size ∧ (message pos).val = 1 then 0 else INVALID_FILE_LENGTH := by
  rw [parse_client_hello_compression_eq]
  by_cases h1 : size < pos + 3
  · rw [if_pos h1, if_neg (show ¬ (pos + 3 ≤ size ∧ (message pos).val = 1) by omega)]
  · by_cases h2 : (message pos).val = 1
    · rw [if_neg h1, if_neg (not_not.mpr h2), if_pos ⟨by omega, h2⟩]
    · rw [if_neg h1, if_pos h2, if_neg (fun h => h2 h.2)]

/-- Return code of the cipher suite stage of `parse_client_hello`. -/
theorem parse_client_hello_cipher_suites_code (message : Buffer) (size : Nat) (ch : ClientHello)
    (pos : Nat) (reads : List Nat) :
    (parse_client_hello_cipher_suites message size ch pos reads).code =
      if pos + 2 + ((message pos).val * 256 + (message (pos + 1)).val) + 3 ≤ size ∧
          (message (pos + 2 + ((message pos).val * 256 + (message (pos + 1)).val))).val = 1
      then 0 else INVALID_FILE_LENGTH := by
  unfold parse_client_hello_cipher_suites
  simp only [be16_eq]
  by_cases hC : (message pos).val * 256 + (message (pos + 1)).val > 0
  · by_cases hs : size < pos + 2 + ((message pos).val * 256 + (message (pos + 1)).val)
    · rw [if_pos hC, if_pos hs, if_neg (fun h => by omega)]
    · rw [if_pos hC, if_neg hs, parse_client_hello_compression_code]
  · have h0 : (message pos).val * 256 + (message (pos + 1)).val = 0 := by omega
    rw [if_neg hC, parse_client_hello_compression_code]
    simp only [h0, Nat.add_zero]

/-- Return code of the strict `parse_client_hello`: the same as that of
`parse_client_hello`. -/
theorem parse_client_hello_strict_code (m : Buffer) (size : Nat) :
    (parse_client_hello_strict m size).code =
      if size < 38 then INVALID_FILE_LENGTH
      else if is_valid_tls_version (m 0) (m 1) = false then INVALID_VERSION
      else if sessionIdLength m + cipherSuitesLength m + 40 ≤ size ∧
          (m (37 + sessionIdLength m + cipherSuitesLength m)).val = 1 then 0
      else INVALID_FILE_LENGTH := by
  have e1 : 35 + (m 34).val + 1 = 36 + (m 34).val := by omega
  have e2 : ∀ C, 37 + (m 34).val + C + 3 = (m 34).val + C + 40 := by intro C; omega
  have e3 : ∀ C, 35 + (m 34).val + 2 + C = 37 + (m 34).val + C := by intro C; omega
  unfold parse_client_hello_strict
  simp only [MIN_CLIENT_HELLO_SIZE, HELLO_RANDOM_BYTES_SIZE, Nat.zero_add, Nat.reduceAdd,
    sessionIdLength, cipherSuitesLength]
  by_cases h38 : size < 38
  · rw [if_pos h38, if_pos h38]
  · rw [if_neg h38, if_neg h38]
    by_cases hv : is_valid_tls_version (m 0) (m 1) = false
    · rw [if_pos hv, if_pos hv]
    · rw [if_neg hv, if_neg hv]
      by_cases hL : (m 34).val > 0
      · rw [if_pos hL]
        by_cases hs : size < 35 + (m 34).val
        · rw [if_pos hs, if_neg (fun h => by omega)]
        · rw [if_neg hs]
          unfold parse_client_hello_cipher_suites_strict
          by_cases h2 : size < 35 + (m 34).val + 2
          · rw [if_pos h2, if_neg (fun h => by omega)]
          · rw [if_neg h2, parse_client_hello_cipher_suites_code]
            simp only [e1, e3, e2]
      · have h0 : (m 34).val = 0 := by omega
        rw [if_neg hL]
        unfold parse_client_hello_cipher_suites_strict
        rw [if_neg (show ¬ size < 35 + 2 by omega), parse_client_hello_cipher_suites_code]
        simp only [h0, Nat.add_zero, Nat.reduceAdd, Nat.zero_add]
        have e4 : ∀ C, 37 + C + 3 = C + 40 := by intro C; omega
        simp only [e4]

/-- Return code of the tail of `parse_server_hello`. -/
theorem parse_server_hello_cipher_suite_code (m : Buffer) (size : Nat) (sh : ServerHello)
    (pos : Nat) (reads : List Nat) :
    (parse_server_hello_cipher_suite m size sh pos reads).code =
      if size < pos + 3 then INVALID_FILE_LENGTH else 0 := by
  unfold parse_server_hello_cipher_suite
  by_cases h1 : size < pos + 2 + 1
  · rw [if_pos h1, if_pos (show size < pos + 3 by omega)]
  · rw [if_neg h1, if_neg (show ¬ size < pos + 3 by omega)]
    by_cases h3 : size ≠ pos + 2 + 1
    · rw [if_pos h3]
    · rw [if_neg h3]

/-- Return code of the strict `parse_server_hello`: the same as that of
`parse_server_hello`. -/
theorem parse_server_hello_strict_code (m : Buffer) (size : Nat) :
    (parse_server_hello_strict m size).code =
      if size < 38 then INVALID_FILE_LENGTH
      else if is_valid_tls_version (m 0) (m 1) = false then INVALID_VERSION
      else if 38 + sessionIdLength m ≤ size then 0
      else INVALID_FILE_LENGTH := by
  unfold parse_server_hello_strict
  simp only [MIN_SERVER_HELLO_SIZE, HELLO_RANDOM_BYTES_SIZE, Nat.zero_add, Nat.reduceAdd,
    sessionIdLength]
  by_cases h38 : size < 38
  · rw [if_pos h38, if_pos h38]
  · rw [if_neg h38, if_neg h38]
    by_cases hv : is_valid_tls_version (m 0) (m 1) = false
    · rw [if_pos hv, if_pos hv]
    · rw [if_neg hv, if_neg hv]
      by_cases hL : (m 34).val > 0
      · rw [if_pos hL]
        by_cases hs : size < 35 + (m 34).val
        · rw [if_pos hs, if_neg (show ¬ 38 + (m 34).val ≤ size by omega)]
        · rw [if_neg hs]
          unfold parse_server_hello_cipher_suite_strict
          by_cases h2 : size < 35 + (m 34).val + 2
          · rw [if_pos h2, if_neg (show ¬ 38 + (m 34).val ≤ size by omega)]
          · rw [if_neg h2, parse_server_hello_cipher_suite_code]
            by_cases h3 : size < 35 + (m 34).val + 3
            · rw [if_pos h3, if_neg (show ¬ 38 + (m 34).val ≤ size by omega)]
            · rw [if_neg h3, if_pos (show 38 + (m 34).val ≤ size by omega)]
      · have h0 : (m 34).val = 0 := by omega
        rw [if_neg hL]
        unfold parse_server_hello_cipher_suite_strict
        rw [if_neg (show ¬ size < 35 + 2 by omega), parse_server_hello_cipher_suite_code,
          if_neg (show ¬ size < 35 + 3 by omega), if_pos (show 38 + (m 34).val ≤ size by omega)]

/-- Offsets a copy of `n` bytes from `pos` reads. -/
theorem mem_memcpyReads (pos n i : Nat) : i ∈ memcpyReads pos n ↔ pos ≤ i ∧ i < pos + n := by
  simp [memcpyReads, List.mem_range'_1]

/-- Offsets read by the compression stage lie inside the body. -/
theorem parse_client_hello_compression_reads (m : Buffer) (size : Nat) (ch : ClientHello)
    (pos : Nat) (reads : List Nat) (i : Nat)
    (hi : i ∈ (parse_client_hello_compression m size ch pos reads).reads) :
    i ∈ reads ∨ i < size := by
  rw [parse_client_hello_compression_eq] at hi
  split_ifs at hi with h1 h2
  · exact Or.inl hi
  · simp only [List.mem_append, List.mem_singleton] at hi
    rcases hi with hi | hi
    · exact Or.inl hi
    · right; omega
  · simp only [List.mem_append, List.mem_singleton, mem_memcpyReads] at hi
    rcases hi with ((hi | hi) | hi) | hi
    · exact Or.inl hi
    · right; omega
    · right; omega
    · right; omega

/-- Offsets read by the cipher suite stage lie inside the body when the two
length bytes do. -/
theorem parse_client_hello_cipher_suites_reads (m : Buffer) (size : Nat) (ch : ClientHello)
    (pos : Nat) (reads : List Nat) (hpos : pos + 2 ≤ size) (i : Nat)
    (hi : i ∈ (parse_client_hello_cipher_suites m size ch pos reads).reads) :
    i ∈ reads ∨ i < size := by
  unfold parse_client_hello_cipher_suites at hi
  simp only [be16_eq] at hi
  split_ifs at hi with h1 h2
  · simp only [List.mem_append, List.mem_cons, List.mem_singleton, List.not_mem_nil,
      or_false] at hi
    rcases hi with hi | hi | hi
    · exact Or.inl hi
    · right; omega
    · right; omega
  · rcases parse_client_hello_compression_reads _ _ _ _ _ _ hi with hi | hi
    · simp only [List.mem_append, List.mem_cons, List.mem_singleton, List.not_mem_nil,
        or_false, mem_memcpyReads] at hi
      rcases hi with (hi | hi | hi) | hi
      · exact Or.inl hi
      · right; omega
      · right; omega
      · right; omega
    · exact Or.inr hi
  · rcases parse_client_hello_compression_reads _ _ _ _ _ _ hi with hi | hi
    · simp only [List.mem_append, List.mem_cons, List.mem_singleton, List.not_mem_nil,
        or_false] at hi
      rcases hi with hi | hi | hi
      · exact Or.inl hi
      · right; omega
      · right; omega
    · exact Or.inr hi

/-- The strict `parse_client_hello` reads no offset outside the body. -/
theorem parse_client_hello_strict_reads (m : Buffer) (size : Nat) (i : Nat)
    (hi : i ∈ (parse_client_hello_strict m size).reads) : i < size := by
  unfold parse_client_hello_strict at hi
  simp only [MIN_CLIENT_HELLO_SIZE, HELLO_RANDOM_BYTES_SIZE, Nat.zero_add, Nat.reduceAdd] at hi
  split_ifs at hi with h38 hv hL hs
  · simp at hi
  · simp only [List.mem_cons, List.mem_singleton, List.not_mem_nil, or_false] at hi
    omega
  · simp only [List.mem_append, List.mem_cons, List.mem_singleton, List.not_mem_nil, or_false,
      mem_memcpyReads] at hi
    omega
  · unfold parse_client_hello_cipher_suites_strict at hi
    split_ifs at hi with h2
    · simp only [List.mem_append, List.mem_cons, List.mem_singleton, List.not_mem_nil, or_false,
        mem_memcpyReads] at hi
      omega
    · rcases parse_client_hello_cipher_suites_reads _ _ _ _ _ (by omega) _ hi with hi | hi
      · simp only [List.mem_append, List.mem_cons, List.mem_singleton, List.not_mem_nil,
          or_false, mem_memcpyReads] at hi
        omega
      · exact hi
  · unfold parse_client_hello_cipher_suites_strict at hi
    split_ifs at hi with h2
    · simp only [List.mem_append, List.mem_cons, List.mem_singleton, List.not_mem_nil, or_false,
        mem_memcpyReads] at hi
      omega
    · rcases parse_client_hello_cipher_suites_reads _ _ _ _ _ (by omega) _ hi with hi | hi
      · simp only [List.mem_append, List.mem_cons, List.mem_singleton, List.not_mem_nil,
          or_false, mem_memcpyReads] at hi
        omega
      · exact hi

/-- Offsets read by the tail of `parse_server_hello` lie inside the body when
the two cipher suite bytes do. -/
theorem parse_server_hello_cipher_suite_reads (m : Buffer) (size : Nat) (sh : ServerHello)
    (pos : Nat) (reads : List Nat) (hpos : pos + 2 ≤ size) (i : Nat)
    (hi : i ∈ (parse_server_hello_cipher_suite m size sh pos reads).reads) :
    i ∈ reads ∨ i < size := by
  unfold parse_server_hello_cipher_suite at hi
  dsimp only at hi
  split_ifs at hi with h1 h2
  · simp only [List.mem_append, List.mem_cons, List.mem_singleton, List.not_mem_nil,
      or_false] at hi
    rcases hi with hi | hi | hi
    · exact Or.inl hi
    · right; omega
    · right; omega
  · simp only [List.mem_append, List.mem_cons, List.mem_singleton, List.not_mem_nil,
      or_false, mem_memcpyReads] at hi
    rcases hi with ((hi | hi | hi) | hi) | hi
    · exact Or.inl hi
    · right; omega
    · right; omega
    · right; omega
    · right; omega
  · simp only [List.mem_append, List.mem_cons, List.mem_singleton, List.not_mem_nil,
      or_false] at hi
    rcases hi with (hi | hi | hi) | hi
    · exact Or.inl hi
    · right; omega
    · right; omega
    · right; omega

/-- The strict `parse_server_hello` reads no offset outside the body. -/
theorem parse_server_hello_strict_reads (m : Buffer) (size : Nat) (i : Nat)
    (hi : i ∈ (parse_server_hello_strict m size).reads) : i < size := by
  unfold parse_server_hello_strict at hi
  simp only [MIN_SERVER_HELLO_SIZE, HELLO_RANDOM_BYTES_SIZE, Nat.zero_add, Nat.reduceAdd] at hi
  split_ifs at hi with h38 hv hL hs
  · simp at hi
  · simp only [List.mem_cons, List.mem_singleton, List.not_mem_nil, or_false] at hi
    omega
  · simp only [List.mem_append, List.mem_cons, List.mem_singleton, List.not_mem_nil, or_false,
      mem_memcpyReads] at hi
    omega
  · unfold parse_server_hello_cipher_suite_strict at hi
    split_ifs at hi with h2
    · simp only [List.mem_append, List.mem_cons, List.mem_singleton, List.not_mem_nil, or_false,
        mem_memcpyReads] at hi
      omega
    · rcases parse_server_hello_cipher_suite_reads _ _ _ _ _ (by omega) _ hi with hi | hi
      · simp only [List.mem_append, List.mem_cons, List.mem_singleton, List.not_mem_nil,
          or_false, mem_memcpyReads] at hi
        omega
      · exact hi
  · unfold parse_server_hello_cipher_suite_strict at hi
    split_ifs at hi with h2
    · simp only [List.mem_append, List.mem_cons, List.mem_singleton, List.not_mem_nil, or_false,
        mem_memcpyReads] at hi
      omega
    · rcases parse_server_hello_cipher_suite_reads _ _ _ _ _ (by omega) _ hi with hi | hi
      · simp only [List.mem_append, List.mem_cons, List.mem_singleton, List.not_mem_nil,
          or_false, mem_memcpyReads] at hi
        omega
      · exact hi

/-- Return code of `parse_client_hello` on two memories that agree on the body. -/
theorem parse_client_hello_code_congr (m m' : Buffer) (size : Nat)
    (h : ∀ i, i < size → m i = m' i) :
    (parse_client_hello m size).code = (parse_client_hello m' size).code := by
  rw [parse_client_hello_code, parse_client_hello_code]
  by_cases h38 : size < 38
  · rw [if_pos h38, if_pos h38]
  · rw [if_neg h38, if_neg h38, ← h 0 (by omega), ← h 1 (by omega)]
    refine if_congr Iff.rfl rfl ?_
    have hL : sessionIdLength m' = sessionIdLength m := by
      unfold sessionIdLength; rw [h 34 (by omega)]
    by_cases hfit : 37 + sessionIdLength m ≤ size
    · have hC : cipherSuitesLength m' = cipherSuitesLength m := by
        unfold cipherSuitesLength
        rw [hL, h (35 + sessionIdLength m) (by omega), h (36 + sessionIdLength m) (by omega)]
      rw [hL, hC]
      by_cases hs : sessionIdLength m + cipherSuitesLength m + 40 ≤ size
      · rw [h (37 + sessionIdLength m + cipherSuitesLength m) (by omega)]
      · rw [if_neg (fun x => hs x.1), if_neg (fun x => hs x.1)]
    · rw [if_neg (fun x => hfit (by omega)), if_neg (fun x => hfit (by omega))]

/-- Return code of `parse_server_hello` on two memories that agree on the body. -/
theorem parse_server_hello_code_congr (m m' : Buffer) (size : Nat)
    (h : ∀ i, i < size → m i = m' i) :
    (parse_server_hello m size).code = (parse_server_hello m' size).code := by
  rw [parse_server_hello_code, parse_server_hello_code]
  by_cases h38 : size < 38
  · rw [if_pos h38, if_pos h38]
  · rw [if_neg h38, if_neg h38, ← h 0 (by omega), ← h 1 (by omega)]
    have hL : sessionIdLength m' = sessionIdLength m := by
      unfold sessionIdLength; rw [h 34 (by omega)]
    rw [hL]

/-- Memory seen through the body pointer, inside the body. -/
theorem bodyBuffer_of_lt (body : List Byte) (behind : Buffer) (i : Nat) (h : i < body.length) :
    bodyBuffer body behind i = body.getD i 0 := by
  unfold bodyBuffer
  rw [if_pos h]

/-- Memory seen through the body pointer, behind the body. -/
theorem bodyBuffer_of_ge (body : List Byte) (behind : Buffer) (i : Nat) (h : body.length ≤ i) :
    bodyBuffer body behind i = behind i := by
  unfold bodyBuffer
  rw [if_neg (by omega)]

/-! ## Claims C11 to C20 -/

/-- Claim C11.  For every non-empty ClientKeyExchange body (`size >= 1`)
`parse_client_key_exchange` returns 0 if and only if the first byte `m[0]`
equals `size - 1`; in every other case it returns
`INVALID_FILE_LENGTH_FOR_CLIENT_KEY_EXCHANGE`, never `INVALID_FILE_LENGTH`; and
no body longer than 256 bytes is accepted. -/
theorem parse_client_key_exchange_accepts_iff (m : Buffer) (size : Nat) (hsize : 1 ≤ size) :
    ((parse_client_key_exchange m size).code = 0 ↔ (m 0).val = size - 1) ∧
    ((parse_client_key_exchange m size).code ≠ 0 →
      (parse_client_key_exchange m size).code = INVALID_FILE_LENGTH_FOR_CLIENT_KEY_EXCHANGE) ∧
    (parse_client_key_exchange m size).code ≠ INVALID_FILE_LENGTH ∧
    ((parse_client_key_exchange m size).code = 0 → size ≤ 256) := by
  unfold parse_client_key_exchange
  simp only [INVALID_FILE_LENGTH_FOR_CLIENT_KEY_EXCHANGE, INVALID_FILE_LENGTH]
  split_ifs with h
  · refine ⟨?_, ?_, ?_, ?_⟩
    · constructor
      · intro h5; exact absurd h5 (by decide)
      · intro h0; exact absurd (show ((m 0).val : Int) = (size : Int) - 1 by omega) h
    · intro _; rfl
    · decide
    · intro h5; exact absurd h5 (by decide)
  · refine ⟨?_, ?_, ?_, ?_⟩
    · constructor
      · intro _; omega
      · intro _; rfl
    · intro h0; exact absurd rfl h0
    · decide
    · intro _; omega

/-- Instance of C11: the body `02 AA BB` is accepted, the body `03 AA BB` is
rejected with `INVALID_FILE_LENGTH_FOR_CLIENT_KEY_EXCHANGE`. -/
theorem parse_client_key_exchange_accepts_iff_witness :
    (parse_client_key_exchange (bufferOf clientKeyExchangeBody) 3).code = 0 ∧
    (parse_client_key_exchange (bufferOf clientKeyExchangeBodyWrongLength) 3).code
      = INVALID_FILE_LENGTH_FOR_CLIENT_KEY_EXCHANGE :=
  ⟨(parse_client_key_exchange_accepts_iff (bufferOf clientKeyExchangeBody) 3 (by decide)).1.mpr
      (by decide),
   (parse_client_key_exchange_accepts_iff (bufferOf clientKeyExchangeBodyWrongLength) 3
      (by decide)).2.1 (by decide)⟩

/-- Claim C12.  On every file the record layer accepts, `main` ends with
`UNSUPPORTED_MESSAGE_TYPE` if and only if the handshake type byte (byte 5) is
none of 1, 2, 11, 12, 14, 16; for each of these six values its result is the
result of the matching body decoder applied to the body the record layer has
copied and to its length.  That body and length are pinned to the file: the
structure `main` holds is the one `initialize_tls_structure` returns, its
handshake type is byte 5, `mLength` is the big-endian value of bytes 6-8 and
equals `file_size - 9`, the body has `mLength` bytes, byte `i` of the memory the
decoders see is `buf[9 + i]` below `mLength` and the heap behind it from there
on. -/
theorem dispatch_on_handshake_type (buf : Buffer) (file_size : Int) (behind : Buffer)
    (hok : (initialize_tls_structure buf file_size HandshakeMessage.zero).code = 0) :
    ((main buf file_size behind).err = UNSUPPORTED_MESSAGE_TYPE ↔
      ¬ ((buf 5).val = 1 ∨ (buf 5).val = 2 ∨ (buf 5).val = 11 ∨ (buf 5).val = 12 ∨
          (buf 5).val = 14 ∨ (buf 5).val = 16)) ∧
    ((buf 5).val = 1 → (main buf file_size behind).err =
      (parse_client_hello
        (bodyBuffer (initialize_tls_structure buf file_size HandshakeMessage.zero).tls_message.body
          behind)
        (initialize_tls_structure buf file_size HandshakeMessage.zero).tls_message.mLength).code) ∧
    ((buf 5).val = 2 → (main buf file_size behind).err =
      (parse_server_hello
        (bodyBuffer (initialize_tls_structure buf file_size HandshakeMessage.zero).tls_message.body
          behind)
        (initialize_tls_structure buf file_size HandshakeMessage.zero).tls_message.mLength).code) ∧
    ((buf 5).val = 11 → (main buf file_size behind).err =
      parse_certificate
        (initialize_tls_structure buf file_size HandshakeMessage.zero).tls_message.mLength) ∧
    ((buf 5).val = 12 → (main buf file_size behind).err =
      parse_server_key_exchange
        (initialize_tls_structure buf file_size HandshakeMessage.zero).tls_message.mLength) ∧
    ((buf 5).val = 14 → (main buf file_size behind).err =
      parse_server_hello_done
        (initialize_tls_structure buf file_size HandshakeMessage.zero).tls_message.mLength) ∧
    ((buf 5).val = 16 → (main buf file_size behind).err =
      (parse_client_key_exchange
        (bodyBuffer (initialize_tls_structure buf file_size HandshakeMessage.zero).tls_message.body
          behind)
        (initialize_tls_structure buf file_size HandshakeMessage.zero).tls_message.mLength).code) ∧
    (main buf file_size behind).tls_message
      = (initialize_tls_structure buf file_size HandshakeMessage.zero).tls_message ∧
    (initialize_tls_structure buf file_size HandshakeMessage.zero).tls_message.hsType
      = (buf 5).val ∧
    (initialize_tls_structure buf file_size HandshakeMessage.zero).tls_message.mLength
      = (buf 6).val * 65536 + (buf 7).val * 256 + (buf 8).val ∧
    ((initialize_tls_structure buf file_size HandshakeMessage.zero).tls_message.mLength : Int)
      = file_size - 9 ∧
    (initialize_tls_structure buf file_size HandshakeMessage.zero).tls_message.body.length
      = (initialize_tls_structure buf file_size HandshakeMessage.zero).tls_message.mLength ∧
    (∀ i : Nat,
      i < (initialize_tls_structure buf file_size HandshakeMessage.zero).tls_message.mLength →
      bodyBuffer (initialize_tls_structure buf file_size HandshakeMessage.zero).tls_message.body
        behind i = buf (9 + i)) ∧
    (∀ i : Nat,
      (initialize_tls_structure buf file_size HandshakeMessage.zero).tls_message.mLength ≤ i →
      bodyBuffer (initialize_tls_structure buf file_size HandshakeMessage.zero).tls_message.body
        behind i = behind i) := by
  obtain ⟨h1, h2, h3, h4, h5⟩ := (initialize_tls_structure_ok_iff buf file_size _).1 hok
  rw [main_of_record_ok buf file_size behind hok,
    initialize_tls_structure_ok_eq buf file_size _ h1 h2 h3 h4 h5]
  refine ⟨?_, ?_, ?_, ?_, ?_, ?_, ?_, rfl, rfl, rfl, ?_, memcpy_length _ _ _, ?_, ?_⟩
  · have hc := parse_client_hello_code_range
      (bodyBuffer (memcpy buf 9 (bodyLength buf)) behind) (bodyLength buf)
    have hs := parse_server_hello_code_range
      (bodyBuffer (memcpy buf 9 (bodyLength buf)) behind) (bodyLength buf)
    have hk := parse_client_key_exchange_code_range
      (bodyBuffer (memcpy buf 9 (bodyLength buf)) behind) (bodyLength buf)
    simp only [INVALID_FILE_LENGTH, INVALID_VERSION,
      INVALID_FILE_LENGTH_FOR_CLIENT_KEY_EXCHANGE] at hc hs hk
    simp only [UNSUPPORTED_MESSAGE_TYPE]
    by_cases h1 : (buf 5).val = 1
    · simp [h1]; omega
    by_cases h2 : (buf 5).val = 2
    · simp [h2]; omega
    by_cases h11 : (buf 5).val = 11
    · simp only [h11, parse_certificate, INVALID_FILE_LENGTH]; split_ifs <;> simp
    by_cases h12 : (buf 5).val = 12
    · simp only [h12, parse_server_key_exchange]; simp
    by_cases h14 : (buf 5).val = 14
    · simp only [h14, parse_server_hello_done, INVALID_FILE_LENGTH]; split_ifs <;> simp
    by_cases h16 : (buf 5).val = 16
    · simp [h16]; omega
    · have : ¬ ((buf 5).val = 1 ∨ (buf 5).val = 2 ∨ (buf 5).val = 11 ∨ (buf 5).val = 12 ∨
          (buf 5).val = 14 ∨ (buf 5).val = 16) := by omega
      simp only [this, not_false_eq_true, iff_true]
  · intro h; simp only [h]
  · intro h; simp only [h]
  · intro h; simp only [h]
  · intro h; simp only [h]
  · intro h; simp only [h]
  · intro h; simp only [h]
  · show ((bodyLength buf : Nat) : Int) = file_size - 9
    unfold fragmentLength at h4 h5
    omega
  · intro i hi
    have hi2 : i < bodyLength buf := hi
    rw [bodyBuffer_of_lt _ _ _ (by rw [memcpy_length]; exact hi2),
      List.getD_eq_getElem?_getD, memcpy_getElem? buf 9 _ i hi2]
    rfl
  · intro i hi
    have hi2 : bodyLength buf ≤ i := hi
    exact bodyBuffer_of_ge _ _ _ (by rw [memcpy_length]; exact hi2)

/-- Instance of C12: the record `16 03 03 00 04 FF 00 00 00` ends with
`UNSUPPORTED_MESSAGE_TYPE`; the ClientKeyExchange record
`16 03 01 00 06 10 00 00 02 01 AA` is dispatched to `parse_client_key_exchange`
on the body `01 AA` of length 2 and ends with 0. -/
theorem dispatch_on_handshake_type_witness :
    (main (bufferOf unsupportedTypeRecord) 9 (bufferOf [])).err = UNSUPPORTED_MESSAGE_TYPE ∧
    (main (bufferOf clientKeyExchangeRecord) 11 (bufferOf [])).err
      = (parse_client_key_exchange
          (bodyBuffer (initialize_tls_structure (bufferOf clientKeyExchangeRecord) 11
            HandshakeMessage.zero).tls_message.body (bufferOf []))
          (initialize_tls_structure (bufferOf clientKeyExchangeRecord) 11
            HandshakeMessage.zero).tls_message.mLength).code ∧
    (initialize_tls_structure (bufferOf clientKeyExchangeRecord) 11
      HandshakeMessage.zero).tls_message.body = [1, 170] ∧
    (main (bufferOf clientKeyExchangeRecord) 11 (bufferOf [])).err = 0 :=
  ⟨(dispatch_on_handshake_type (bufferOf unsupportedTypeRecord) 9 (bufferOf [])
      (by decide)).1.mpr (by decide),
   (dispatch_on_handshake_type (bufferOf clientKeyExchangeRecord) 11 (bufferOf [])
      (by decide)).2.2.2.2.2.2.1 (by decide),
   by decide,
   ((dispatch_on_handshake_type (bufferOf clientKeyExchangeRecord) 11 (bufferOf [])
      (by decide)).2.2.2.2.2.2.1 (by decide)).trans (by decide)⟩

/-- Claim C13.  For every file whose byte 5 is 14, record layer and dispatch to
`parse_server_hello_done` succeed if and only if the file is exactly the 9
bytes `16 03 vv 00 04 0E 00 00 00` with `vv` one of 1, 2, 3; on success the
handshake type is 14 and the body is empty.  Whenever the record layer accepts
a file with a non-zero body length the result is `INVALID_FILE_LENGTH`;
`parse_server_hello_done` returns 0 iff its argument is 0. -/
theorem server_hello_done_end_to_end (buf : Buffer) (file_size : Int) (behind : Buffer)
    (h14 : (buf 5).val = 14) :
    ((main buf file_size behind).err = 0 ↔
      (file_size = 9 ∧ (buf 0).val = 22 ∧ (buf 1).val = 3 ∧
        ((buf 2).val = 1 ∨ (buf 2).val = 2 ∨ (buf 2).val = 3) ∧
        (buf 3).val = 0 ∧ (buf 4).val = 4 ∧
        (buf 6).val = 0 ∧ (buf 7).val = 0 ∧ (buf 8).val = 0)) ∧
    ((main buf file_size behind).err = 0 →
      (main buf file_size behind).tls_message.hsType = 14 ∧
      (main buf file_size behind).tls_message.body = []) ∧
    ((initialize_tls_structure buf file_size HandshakeMessage.zero).code = 0 →
      (initialize_tls_structure buf file_size HandshakeMessage.zero).tls_message.mLength ≠ 0 →
      (main buf file_size behind).err = INVALID_FILE_LENGTH) ∧
    (∀ size : Nat, parse_server_hello_done size = 0 ↔ size = 0) := by
  have hdone : ∀ size : Nat, parse_server_hello_done size = 0 ↔ size = 0 := by
    intro size
    unfold parse_server_hello_done
    split_ifs with h
    · simp [INVALID_FILE_LENGTH, h]
    · simp only [true_iff]
      omega
  by_cases hok : (initialize_tls_structure buf file_size HandshakeMessage.zero).code = 0
  · obtain ⟨h1, h2, h3, h4, h5⟩ := (initialize_tls_structure_ok_iff buf file_size _).1 hok
    have hv := (is_valid_tls_version_iff (buf 1) (buf 2)).1 h3
    have hm : (initialize_tls_structure buf file_size HandshakeMessage.zero).tls_message.mLength
        = bodyLength buf := by
      rw [initialize_tls_structure_ok_eq buf file_size _ h1 h2 h3 h4 h5]
    rw [hm, main_of_record_ok buf file_size behind hok]
    unfold fragmentLength at h4 h5
    refine ⟨?_, ?_, ?_, hdone⟩
    · simp only [h14, hdone]
      constructor
      · intro h0
        unfold bodyLength at h0 h5
        omega
      · intro h
        unfold bodyLength
        omega
    · simp only [h14, hdone]
      intro h0
      exact ⟨trivial, by rw [h0]; rfl⟩
    · intro _ hne
      simp only [h14]
      unfold parse_server_hello_done
      rw [if_pos hne]
  · have hne : (main buf file_size behind).err ≠ 0 := by
      rw [main_of_record_error buf file_size behind hok]; exact hok
    refine ⟨?_, fun h => absurd h hne, fun h => absurd h hok, hdone⟩
    constructor
    · intro h; exact absurd h hne
    · rintro ⟨hs, h0, h1, h2, h3, h4, h6, h7, h8⟩
      exfalso
      apply hok
      rw [initialize_tls_structure_ok_iff]
      refine ⟨by omega, h0, (is_valid_tls_version_iff _ _).2 ⟨h1, h2⟩, ?_, ?_⟩
      · unfold fragmentLength; omega
      · unfold fragmentLength bodyLength; omega

/-- Instance of C13: the record `16 03 03 00 04 0E 00 00 00` is decoded, with
handshake type 14 and an empty body. -/
theorem server_hello_done_end_to_end_witness :
    (main (bufferOf serverHelloDoneRecord) 9 (bufferOf [])).err = 0 ∧
    (main (bufferOf serverHelloDoneRecord) 9 (bufferOf [])).tls_message.hsType = 14 ∧
    (main (bufferOf serverHelloDoneRecord) 9 (bufferOf [])).tls_message.body = [] :=
  ⟨(server_hello_done_end_to_end (bufferOf serverHelloDoneRecord) 9 (bufferOf [])
      (by decide)).1.mpr (by decide),
   (server_hello_done_end_to_end (bufferOf serverHelloDoneRecord) 9 (bufferOf [])
      (by decide)).2.1 (by decide)⟩

/-- Claim C14.  `is_valid_tls_version` is true if and only if `(major, minor)` is
one of (3,1), (3,2), (3,3); and `initialize_tls_structure`, `parse_client_hello`
and `parse_server_hello` return 0 only when their version bytes are in that
set. -/
theorem version_acceptance (major minor : Byte) :
    (is_valid_tls_version major minor = true ↔
      ((major.val, minor.val) = (3, 1) ∨ (major.val, minor.val) = (3, 2) ∨
        (major.val, minor.val) = (3, 3))) ∧
    (∀ (raw : Buffer) (size : Int) (t : HandshakeMessage),
      (initialize_tls_structure raw size t).code = 0 →
        ((raw 1).val, (raw 2).val) = (3, 1) ∨ ((raw 1).val, (raw 2).val) = (3, 2) ∨
          ((raw 1).val, (raw 2).val) = (3, 3)) ∧
    (∀ (m : Buffer) (size : Nat), (parse_client_hello m size).code = 0 →
        ((m 0).val, (m 1).val) = (3, 1) ∨ ((m 0).val, (m 1).val) = (3, 2) ∨
          ((m 0).val, (m 1).val) = (3, 3)) ∧
    (∀ (m : Buffer) (size : Nat), (parse_server_hello m size).code = 0 →
        ((m 0).val, (m 1).val) = (3, 1) ∨ ((m 0).val, (m 1).val) = (3, 2) ∨
          ((m 0).val, (m 1).val) = (3, 3)) := by
  have key : ∀ a b : Byte, is_valid_tls_version a b = true ↔
      ((a.val, b.val) = (3, 1) ∨ (a.val, b.val) = (3, 2) ∨ (a.val, b.val) = (3, 3)) := by
    intro a b
    rw [is_valid_tls_version_iff]
    simp only [Prod.mk.injEq]
    tauto
  refine ⟨key major minor, ?_, ?_, ?_⟩
  · intro raw size t h
    exact (key _ _).1 ((initialize_tls_structure_ok_iff raw size t).1 h).2.2.1
  · intro m size h
    exact (key _ _).1 ((parse_client_hello_ok_iff m size).1 h).1
  · intro m size h
    exact (key _ _).1 ((parse_server_hello_ok_iff m size).1 h).2.1

/-- Claim C15.  For every buffer of more than 5 bytes: when byte 0 is not 22 the
record layer returns `INVALID_CONTENT_TYPE`, whatever the version and length
bytes; when byte 0 is 22 and bytes 1-2 are no supported version it returns
`INVALID_VERSION`, whatever the length bytes; and it returns
`INVALID_FILE_LENGTH` only when content type and version are both valid. -/
theorem record_layer_check_order (raw : Buffer) (size : Int) (t : HandshakeMessage)
    (hsize : 5 < size) :
    ((raw 0).val ≠ HANDSHAKE →
      (initialize_tls_structure raw size t).code = INVALID_CONTENT_TYPE) ∧
    ((raw 0).val = HANDSHAKE → is_valid_tls_version (raw 1) (raw 2) = false →
      (initialize_tls_structure raw size t).code = INVALID_VERSION) ∧
    ((initialize_tls_structure raw size t).code = INVALID_FILE_LENGTH →
      (raw 0).val = HANDSHAKE ∧ is_valid_tls_version (raw 1) (raw 2) = true) := by
  rw [initialize_tls_structure_code]
  simp only [HANDSHAKE, INVALID_FILE_LENGTH, INVALID_CONTENT_TYPE, INVALID_VERSION]
  split_ifs <;> simp_all
  all_goals omega

/-- Instance of C15: six bytes starting `17 09 09` give `INVALID_CONTENT_TYPE`, six
bytes starting `16 09 09` give `INVALID_VERSION`. -/
theorem record_layer_check_order_witness :
    (initialize_tls_structure (bufferOf [23, 9, 9, 9, 9, 9]) 6 HandshakeMessage.zero).code
      = INVALID_CONTENT_TYPE ∧
    (initialize_tls_structure (bufferOf [22, 9, 9, 9, 9, 9]) 6 HandshakeMessage.zero).code
      = INVALID_VERSION :=
  ⟨(record_layer_check_order (bufferOf [23, 9, 9, 9, 9, 9]) 6 HandshakeMessage.zero
      (by decide)).1 (by decide),
   (record_layer_check_order (bufferOf [22, 9, 9, 9, 9, 9]) 6 HandshakeMessage.zero
      (by decide)).2.1 (by decide) (by decide)⟩

/-- Claim C16 as stated fails: a ClientHello body and a ServerHello body with a
session id of 33 bytes are both decoded, with decoded session id length 33. -/
theorem session_id_of_33_bytes_accepted :
    clientHelloLongSessionId.length = 73 ∧
    (parse_client_hello (bufferOf clientHelloLongSessionId) 73).code = 0 ∧
    ((parse_client_hello (bufferOf clientHelloLongSessionId) 73).hello.map
      (fun h => h.sessionId.length)) = some 33 ∧
    serverHelloLongSessionId.length = 71 ∧
    (parse_server_hello (bufferOf serverHelloLongSessionId) 71).code = 0 ∧
    ((parse_server_hello (bufferOf serverHelloLongSessionId) 71).hello.map
      (fun h => h.sessionId.length)) = some 33 := by
  decide

/-- Claim C16, amended.  For every body `parse_client_hello` or
`parse_server_hello` decodes, the decoded session id length is the length byte
`m[34]`, hence in the range 0..255, the session id has that many bytes, and it
fits the body: `length + 40 <= size` for a ClientHello, `length + 38 <= size`
for a ServerHello.  No bound of 32 is checked. -/
theorem session_id_length_bounds :
    (∀ (m : Buffer) (size : Nat), (parse_client_hello m size).code = 0 →
      ∃ h : ClientHello, (parse_client_hello m size).hello = some h ∧
        h.sessionId.length = (m 34).val ∧ h.sessionId.length ≤ 255 ∧
        h.sessionId.length + 40 ≤ size ∧
        h.sessionId.sessionId.length = h.sessionId.length) ∧
    (∀ (m : Buffer) (size : Nat), (parse_server_hello m size).code = 0 →
      ∃ h : ServerHello, (parse_server_hello m size).hello = some h ∧
        h.sessionId.length = (m 34).val ∧ h.sessionId.length ≤ 255 ∧
        h.sessionId.length + 38 ≤ size ∧
        h.sessionId.sessionId.length = h.sessionId.length) := by
  constructor
  · intro m size hok
    obtain ⟨hv, hs, hc⟩ := (parse_client_hello_ok_iff m size).1 hok
    refine ⟨_, parse_client_hello_ok_eq m size hv hs hc, rfl, ?_, ?_, memcpy_length _ _ _⟩
    · show sessionIdLength m ≤ 255
      unfold sessionIdLength; omega
    · show sessionIdLength m + 40 ≤ size
      omega
  · intro m size hok
    obtain ⟨_, hv, hs⟩ := (parse_server_hello_ok_iff m size).1 hok
    refine ⟨_, parse_server_hello_ok_eq m size hv hs, rfl, ?_, ?_, memcpy_length _ _ _⟩
    · show sessionIdLength m ≤ 255
      unfold sessionIdLength; omega
    · show sessionIdLength m + 38 ≤ size
      omega

/-- Claim C17 as stated fails: a ClientHello body whose cipher suite list is one
byte long is decoded, with `csCollection.length = 1`. -/
theorem odd_cipher_suite_list_accepted :
    clientHelloOddCipherSuites.length = 41 ∧
    (parse_client_hello (bufferOf clientHelloOddCipherSuites) 41).code = 0 ∧
    ((parse_client_hello (bufferOf clientHelloOddCipherSuites) 41).hello.map
      (fun h => h.csCollection.length)) = some 1 ∧
    ¬ (2 ∣ 1) := by
  decide

/-- Claim C17, amended.  For every body `parse_client_hello` decodes, the decoded
cipher suite list byte length is the big-endian 16-bit value of the two bytes
behind the session id, hence in the range 0..65535, the list has that many
bytes and fits the body (`L + length + 40 <= size`).  Its parity is not
checked: a list of one byte and a list of four bytes are both accepted. -/
theorem cipher_suite_list_length_bounds :
    (∀ (m : Buffer) (size : Nat), (parse_client_hello m size).code = 0 →
      ∃ h : ClientHello, (parse_client_hello m size).hello = some h ∧
        h.csCollection.length
          = (m (35 + (m 34).val)).val * 256 + (m (36 + (m 34).val)).val ∧
        h.csCollection.length ≤ 65535 ∧
        h.sessionId.length + h.csCollection.length + 40 ≤ size ∧
        h.csCollection.cipherSuites.length = h.csCollection.length) ∧
    ((parse_client_hello (bufferOf clientHelloOddCipherSuites) 41).code = 0 ∧
      ((parse_client_hello (bufferOf clientHelloOddCipherSuites) 41).hello.map
        (fun h => h.csCollection.length)) = some 1) ∧
    ((parse_client_hello (bufferOf clientHelloWithOneExtensionByte) 44).code = 0 ∧
      ((parse_client_hello (bufferOf clientHelloWithOneExtensionByte) 44).hello.map
        (fun h => h.csCollection.length)) = some 4) := by
  refine ⟨?_, by decide, by decide⟩
  intro m size hok
  obtain ⟨hv, hs, hc⟩ := (parse_client_hello_ok_iff m size).1 hok
  refine ⟨_, parse_client_hello_ok_eq m size hv hs hc, rfl, ?_, ?_, memcpy_length _ _ _⟩
  · show cipherSuitesLength m ≤ 65535
    unfold cipherSuitesLength; omega
  · show sessionIdLength m + cipherSuitesLength m + 40 ≤ size
    omega

/-- Claim C18, evaluated at a failing input.  On the record
`16 03 03 00 04 10 00 00 00` the record layer leaves an empty body and `main`
ends with `INVALID_FILE_LENGTH_FOR_CLIENT_KEY_EXCHANGE`, as the claim says; but
`parse_client_key_exchange` called with `size = 0` reads offset 0 of the
zero-length body before it compares anything, so offset 0 is read although
`size >= 1` does not hold. -/
theorem parse_client_key_exchange_reads_empty_body :
    (main (bufferOf emptyClientKeyExchangeRecord) 9 (bufferOf [])).err
      = INVALID_FILE_LENGTH_FOR_CLIENT_KEY_EXCHANGE ∧
    (main (bufferOf emptyClientKeyExchangeRecord) 9 (bufferOf [])).tls_message.body = [] ∧
    (parse_client_key_exchange (bodyBuffer [] (bufferOf [])) 0).code
      = INVALID_FILE_LENGTH_FOR_CLIENT_KEY_EXCHANGE ∧
    (parse_client_key_exchange (bodyBuffer [] (bufferOf [])) 0).reads = [0] ∧
    ¬ (∀ i ∈ (parse_client_key_exchange (bodyBuffer [] (bufferOf [])) 0).reads, i < 0) := by
  decide

/-- Claim C19.  Whenever `initialize_tls_structure` returns 0, `mLength` is at most
65531 (`fLength = mLength + 4` is built from two bytes), so its reduction
modulo `2 ^ 16` in the call of a body decoder changes nothing, and the size the
decoder sees is the number of bytes of the body. -/
theorem body_length_fits_16_bits (raw : Buffer) (size : Int) (t : HandshakeMessage)
    (hok : (initialize_tls_structure raw size t).code = 0) :
    (initialize_tls_structure raw size t).tls_message.mLength ≤ 65531 ∧
    (initialize_tls_structure raw size t).tls_message.fLength
      = (initialize_tls_structure raw size t).tls_message.mLength + 4 ∧
    (initialize_tls_structure raw size t).tls_message.mLength % 2 ^ 16
      = (initialize_tls_structure raw size t).tls_message.mLength ∧
    (initialize_tls_structure raw size t).tls_message.mLength % 2 ^ 16
      = (initialize_tls_structure raw size t).tls_message.body.length := by
  obtain ⟨h1, h2, h3, h4, h5⟩ := (initialize_tls_structure_ok_iff raw size t).1 hok
  rw [initialize_tls_structure_ok_eq raw size t h1 h2 h3 h4 h5]
  have hF : fragmentLength raw ≤ 65535 := by unfold fragmentLength; omega
  have hM : bodyLength raw ≤ 65531 := by omega
  refine ⟨hM, h5, ?_, ?_⟩
  · show bodyLength raw % 2 ^ 16 = bodyLength raw
    exact Nat.mod_eq_of_lt (by norm_num; omega)
  · show bodyLength raw % 2 ^ 16 = (memcpy raw 9 (bodyLength raw)).length
    rw [memcpy_length]
    exact Nat.mod_eq_of_lt (by norm_num; omega)

/-- Instance of C19: the eleven byte ClientKeyExchange record is accepted and its
body length is at most 65531. -/
theorem body_length_fits_16_bits_witness :
    (initialize_tls_structure (bufferOf clientKeyExchangeRecord) 11
        HandshakeMessage.zero).tls_message.mLength ≤ 65531 :=
  (body_length_fits_16_bits (bufferOf clientKeyExchangeRecord) 11 HandshakeMessage.zero
    (by decide)).1

/-- Claim C20.  For every memory `m` and every `size`, `parse_client_hello` and
`parse_server_hello` return the code of their strict variants, which guard the
session id with `size >= 35 + L` and the two bytes behind it with
`size >= 37 + L` and which read no offset outside the body.  Hence the return
codes depend only on `size` and the first `size` bytes: two memories that agree
below `size` give the same codes. -/
theorem loose_session_id_bound_same_verdict (m : Buffer) (size : Nat) :
    (parse_client_hello m size).code = (parse_client_hello_strict m size).code ∧
    (parse_server_hello m size).code = (parse_server_hello_strict m size).code ∧
    (∀ i ∈ (parse_client_hello_strict m size).reads, i < size) ∧
    (∀ i ∈ (parse_server_hello_strict m size).reads, i < size) ∧
    (∀ m' : Buffer, (∀ i, i < size → m i = m' i) →
      (parse_client_hello m size).code = (parse_client_hello m' size).code ∧
      (parse_server_hello m size).code = (parse_server_hello m' size).code) := by
  refine ⟨?_, ?_, parse_client_hello_strict_reads m size, parse_server_hello_strict_reads m size,
    fun m' h => ⟨parse_client_hello_code_congr m m' size h,
      parse_server_hello_code_congr m m' size h⟩⟩
  · rw [parse_client_hello_code, parse_client_hello_strict_code]
  · rw [parse_server_hello_code, parse_server_hello_strict_code]

end TlsParser
